import Mathlib

/-!
Verification of the ArCTIC specification against the `arcticpy` sources.

The Python wrapper (`src/python/arcticpy/`) is embedded directly: pure
functions become Lean functions over `ℚ` (standing for IEEE doubles, whose
values on the verified inputs are exact dyadic/decimal rationals) or `ℝ`
where real powers occur; the compiled C++ core (`cy_add_cti`, `src/cti.cpp`)
is not part of the repository, so it is modelled from the specification where
a claim depends on it — every such definition carries a doc comment starting
`Modelled from the spec:`.
-/

attribute [local semireducible] Rat.add Rat.sub Rat.mul Rat.inv

namespace ArcticSpec

/-! ## Images

A 2-D image is a row-major list of rows of rational pixel values
(`numpy.ndarray` of doubles in the source). -/

abbrev Image : Type := List (List ℚ)

/-- Pixel-wise clip at zero of one value: models the fancy-indexing assignment
`image_remove_cti[image_remove_cti < 0.0] = 0.0` (cti.py:528). -/
def clip0 (x : ℚ) : ℚ := if x < 0 then 0 else x

/-- Pixel-wise clip at zero of a whole image. -/
def clipImage (img : Image) : Image := img.map (fun row => row.map clip0)

/-- Pixel-wise addition of two images (numpy `+`). -/
def imgAdd (a b : Image) : Image := List.zipWith (List.zipWith (· + ·)) a b

/-- Pixel-wise subtraction of two images (numpy `-`). -/
def imgSub (a b : Image) : Image := List.zipWith (List.zipWith (· - ·)) a b

/-! ## The corrector loop of `remove_cti` (cti.py:354-571)

`add_cti` is abstracted as a function `Image → Image`: inside `remove_cti`
it is invoked with the same model parameters at every iteration, so the
whole parameter block is summarised by that one function.  The embedded
loop covers the default configuration of `remove_cti`: `remove_read_noise`
is `False`, `pixel_bounce_list` is `None`, `vv_test` is `False` and
`header` is `None`, so the read-noise, pixel-bounce, V&V and header code
paths (all guarded by those flags in the source) contribute nothing. -/

/-- Body of one iteration of `remove_cti`'s loop (cti.py:471-528): one
`add_cti` call on the current estimate, the update
`image_remove_cti += image - image_add_cti`, and — only when negative pixels
are disallowed and this is the first iteration — the clip at zero. -/
def remove_cti_body (addCti : Image → Image) (image : Image) (allowNeg : Bool)
    (iteration : ℕ) (est : Image) : Image :=
  let image_add_cti := addCti est
  let est' := imgAdd est (imgSub image image_add_cti)
  if allowNeg = false ∧ iteration = 1 then clipImage est' else est'

/-- The loop `for iteration in range(1, n_iterations + 1)` of `remove_cti`;
`remaining` counts the iterations still to run, `iteration` is the 1-based
loop index of the source. -/
def remove_cti_loop (addCti : Image → Image) (image : Image) (allowNeg : Bool) :
    ℕ → ℕ → Image → Image
  | 0, _, est => est
  | remaining + 1, iteration, est =>
      remove_cti_loop addCti image allowNeg remaining (iteration + 1)
        (remove_cti_body addCti image allowNeg iteration est)

/-- The successive arguments fed to `add_cti` by `remove_cti`'s loop: one per
iteration, each the estimate current at that iteration. -/
def remove_cti_trace (addCti : Image → Image) (image : Image) (allowNeg : Bool) :
    ℕ → ℕ → Image → List Image
  | 0, _, _ => []
  | remaining + 1, iteration, est =>
      est :: remove_cti_trace addCti image allowNeg remaining (iteration + 1)
        (remove_cti_body addCti image allowNeg iteration est)

/-- `remove_cti` (cti.py:354-571) under the default flags: the estimate starts
as a copy of the observed image (cti.py:434-435) and is refined
`n_iterations` times. -/
def remove_cti (addCti : Image → Image) (image : Image) (n_iterations : ℕ)
    (allowNeg : Bool) : Image :=
  remove_cti_loop addCti image allowNeg n_iterations 1 image

/-- The corrector iteration exactly as spec §4.5 states it:
`estimate ← observed`; then for `i` in `1..n`, `trailed ← add_cti(estimate)`,
`estimate ← estimate + (observed − trailed)`, and a clip at 0 only when
negative pixels are disallowed and `i = 1`.  `correctorSpec n` is the
estimate after `n` iterations (the recursion index `i` here is the number of
iterations already performed, so the source's `i == 1` clip is `i = 0`). -/
def correctorSpec (addCti : Image → Image) (observed : Image) (allowNeg : Bool) :
    ℕ → Image
  | 0 => observed
  | i + 1 =>
      let est := correctorSpec addCti observed allowNeg i
      let est' := imgAdd est (imgSub observed (addCti est))
      if allowNeg = false ∧ i = 0 then clipImage est' else est'

theorem remove_cti_loop_shift (addCti : Image → Image) (obs : Image)
    (allowNeg : Bool) :
    ∀ (remaining j : ℕ),
      remove_cti_loop addCti obs allowNeg remaining (j + 1)
          (correctorSpec addCti obs allowNeg j)
        = correctorSpec addCti obs allowNeg (j + remaining)
      ∧ remove_cti_trace addCti obs allowNeg remaining (j + 1)
          (correctorSpec addCti obs allowNeg j)
        = (List.range remaining).map
            (fun i => correctorSpec addCti obs allowNeg (j + i)) := by
  intro remaining
  induction remaining with
  | zero => intro j; simp [remove_cti_loop, remove_cti_trace]
  | succ r ih =>
      intro j
      have hbody :
          remove_cti_body addCti obs allowNeg (j + 1)
              (correctorSpec addCti obs allowNeg j)
            = correctorSpec addCti obs allowNeg (j + 1) := by
        by_cases hj : j = 0
        · subst hj; simp [remove_cti_body, correctorSpec]
        · have h1 : ¬(j + 1 = 1) := by omega
          simp [remove_cti_body, correctorSpec, hj, h1]
      have hfun :
          (fun i => correctorSpec addCti obs allowNeg (j + 1 + i))
            = (fun i => correctorSpec addCti obs allowNeg (j + Nat.succ i)) := by
        funext i; congr 1; omega
      constructor
      · rw [remove_cti_loop, hbody, (ih (j + 1)).1]
        congr 1
        omega
      · rw [remove_cti_trace, hbody, (ih (j + 1)).2, hfun,
          List.range_succ_eq_map]
        simp only [List.map_cons, List.map_map, Function.comp_def]
        rfl

/-- C1: for every input image and every `n_iterations ≥ 1`, `remove_cti`
computes its result by the fixed-point iteration of spec §4.5 — starting from
`estimate = observed`, it performs exactly one `add_cti` call per iteration
(the trace of `add_cti` arguments has length `n_iterations` and its `i`-th
entry is the `i`-th iterate), updates `estimate` to
`estimate + (observed − trailed)`, and when `allow_negative_pixels` is false
clips negative pixels to zero only after the first iteration and on no later
one (all of which the spec-side `correctorSpec` expresses). -/
theorem C1_remove_cti_fixed_point (addCti : Image → Image) (image : Image)
    (allowNeg : Bool) (n : ℕ) (hn : 1 ≤ n) :
    remove_cti addCti image n allowNeg = correctorSpec addCti image allowNeg n
    ∧ (remove_cti_trace addCti image allowNeg n 1 image).length = n
    ∧ remove_cti_trace addCti image allowNeg n 1 image
        = (List.range n).map (correctorSpec addCti image allowNeg) := by
  have h := remove_cti_loop_shift addCti image allowNeg n 0
  simp only [correctorSpec, Nat.zero_add] at h
  refine ⟨?_, ?_, ?_⟩
  · rw [remove_cti, h.1]
  · rw [h.2, List.length_map, List.length_range]
  · rw [h.2]

/-- Witness for C1 at a concrete instance: the doubling map as `add_cti`,
a 1×2 image, two iterations. -/
theorem C1_witness :
    (1 ≤ 2
      ∧ remove_cti (fun i => imgAdd i i) [[3, 4]] 2 true
          = correctorSpec (fun i => imgAdd i i) [[3, 4]] true 2)
    ∧ remove_cti (fun i => imgAdd i i) [[3, 4]] 2 true = [[3, 4]] := by
  refine ⟨⟨by decide, (C1_remove_cti_fixed_point (fun i => imgAdd i i)
    [[3, 4]] true 2 (by decide)).1⟩, by decide⟩

/-! ## The CCD fill model (ccd.py)

`CCDPhase.volume` works on IEEE doubles with a real exponent, so this part
of the embedding lives in `ℝ` with `Real.rpow` as `**`. -/

/-- `np.clip(x, 0, 1)`. -/
noncomputable def npClip01 (x : ℝ) : ℝ := max 0 (min 1 x)

/-- `CCDPhase` (ccd.py:4-15): the four stored well parameters. -/
structure CCDPhase where
  full_well_depth : ℝ
  well_notch_depth : ℝ
  well_fill_power : ℝ
  first_electron_fill : ℝ

/-- `CCDPhase.volume` (ccd.py:17-27): fraction of a pixel volume occupied by
`n_e` electrons. -/
noncomputable def CCDPhase.volume (phase : CCDPhase) (n_e : ℝ) : ℝ :=
  let well_range := phase.full_well_depth - phase.well_notch_depth
  phase.first_electron_fill
    + (1 - phase.first_electron_fill)
      * npClip01 ((n_e - phase.well_notch_depth) / well_range)
          ^ phase.well_fill_power

/-- C2 counterexample: the claim promises `volume n_e = first_electron_fill`
for every `CCDPhase` whenever `n_e` is at or below the notch depth, but for a
phase with `well_fill_power = 0` the code computes `clip(0,0,1) ** 0 = 1`
(IEEE `0.0 ** 0.0` is `1.0`, as is `Real.rpow 0 0`), so the volume at the
notch is `1`, not the `first_electron_fill` of `0`. -/
theorem C2_counterexample :
    CCDPhase.volume ⟨1, 0, 0, 0⟩ 0 = 1
    ∧ (⟨1, 0, 0, 0⟩ : CCDPhase).first_electron_fill = 0
    ∧ (0 : ℝ) ≤ (⟨1, 0, 0, 0⟩ : CCDPhase).well_notch_depth := by
  refine ⟨?_, rfl, le_refl 0⟩
  norm_num [CCDPhase.volume, npClip01, Real.rpow_zero]

/-- C2 (amended): the volume map returns exactly
`fef + (1 - fef) * clip((n_e - notch)/(fwd - notch), 0, 1) ^ p`; and under the
data-model invariants `notch < fwd` and — for the lower clause — `0 < p`, the
result is `first_electron_fill` for `n_e` at or below the notch depth and `1`
for `n_e` at or above the full-well depth. -/
theorem C2_volume_clipped_power (phase : CCDPhase) (n_e : ℝ) :
    phase.volume n_e
        = phase.first_electron_fill
          + (1 - phase.first_electron_fill)
            * npClip01 ((n_e - phase.well_notch_depth)
                  / (phase.full_well_depth - phase.well_notch_depth))
                ^ phase.well_fill_power
    ∧ (phase.well_notch_depth < phase.full_well_depth →
        0 < phase.well_fill_power →
        n_e ≤ phase.well_notch_depth →
        phase.volume n_e = phase.first_electron_fill)
    ∧ (phase.well_notch_depth < phase.full_well_depth →
        phase.full_well_depth ≤ n_e →
        phase.volume n_e = 1) := by
  refine ⟨rfl, ?_, ?_⟩
  · intro hrange hp hne
    have hq : (n_e - phase.well_notch_depth)
        / (phase.full_well_depth - phase.well_notch_depth) ≤ 0 :=
      div_nonpos_of_nonpos_of_nonneg (by linarith) (by linarith)
    have hclip : npClip01 ((n_e - phase.well_notch_depth)
        / (phase.full_well_depth - phase.well_notch_depth)) = 0 := by
      unfold npClip01
      rw [min_eq_right (by linarith), max_eq_left hq]
    simp only [CCDPhase.volume]
    rw [hclip, Real.zero_rpow (ne_of_gt hp)]
    ring
  · intro hrange hne
    have hq : (1 : ℝ) ≤ (n_e - phase.well_notch_depth)
        / (phase.full_well_depth - phase.well_notch_depth) := by
      rw [le_div_iff₀ (by linarith)]
      linarith
    have hclip : npClip01 ((n_e - phase.well_notch_depth)
        / (phase.full_well_depth - phase.well_notch_depth)) = 1 := by
      unfold npClip01
      rw [min_eq_left hq, max_eq_right (by norm_num)]
    simp only [CCDPhase.volume]
    rw [hclip, Real.one_rpow]
    ring

/-- Witness for C2 at the phase (fwd 2, notch 0, power 1, fef 0): below the
notch the volume is the `first_electron_fill` 0, above full well it is 1. -/
theorem C2_witness :
    ((0 : ℝ) < 2 ∧ (0 : ℝ) < 1 ∧ (-1 : ℝ) ≤ 0
      ∧ CCDPhase.volume ⟨2, 0, 1, 0⟩ (-1) = 0)
    ∧ ((2 : ℝ) ≤ 3 ∧ CCDPhase.volume ⟨2, 0, 1, 0⟩ 3 = 1) := by
  constructor
  · exact ⟨by norm_num, by norm_num, by norm_num,
      (C2_volume_clipped_power ⟨2, 0, 1, 0⟩ (-1)).2.1
        (by norm_num) (by norm_num) (by norm_num)⟩
  · exact ⟨by norm_num,
      (C2_volume_clipped_power ⟨2, 0, 1, 0⟩ 3).2.2 (by norm_num) (by norm_num)⟩

/-! ## Read-out electronics (roe.py) -/

/-- roe.py:52: `roe_type_standard = 0`. -/
def roe_type_standard : ℕ := 0
/-- roe.py:53: `roe_type_charge_injection = 1`. -/
def roe_type_charge_injection : ℕ := 1
/-- roe.py:54: `roe_type_trap_pumping = 2`. -/
def roe_type_trap_pumping : ℕ := 2

/-- The attributes an `ROE` instance carries after construction
(roe.py:57-85). -/
structure ROE where
  dwell_times : List ℚ
  prescan_offset : ℤ
  overscan_start : ℤ
  empty_traps_between_columns : Bool
  empty_traps_for_first_transfers : Bool
  force_release_away_from_readout : Bool
  use_integer_express_matrix : Bool
  pixel_bounce_kA : ℚ
  pixel_bounce_kv : ℚ
  pixel_bounce_omega : ℚ
  pixel_bounce_gamma : ℚ
  n_pumps : ℤ
  type : ℕ
  deriving DecidableEq

/-- `ROE.__init__` (roe.py:57-85): stores its arguments, sets the dummy
`n_pumps = -1` and `type = roe_type_standard`. -/
def ROE_init (dwell_times : List ℚ) (prescan_offset overscan_start : ℤ)
    (empty_traps_between_columns empty_traps_for_first_transfers
      force_release_away_from_readout use_integer_express_matrix : Bool)
    (pixel_bounce_kA pixel_bounce_kv pixel_bounce_omega pixel_bounce_gamma : ℚ) :
    ROE :=
  { dwell_times := dwell_times
    prescan_offset := prescan_offset
    overscan_start := overscan_start
    empty_traps_between_columns := empty_traps_between_columns
    empty_traps_for_first_transfers := empty_traps_for_first_transfers
    force_release_away_from_readout := force_release_away_from_readout
    use_integer_express_matrix := use_integer_express_matrix
    pixel_bounce_kA := pixel_bounce_kA
    pixel_bounce_kv := pixel_bounce_kv
    pixel_bounce_omega := pixel_bounce_omega
    pixel_bounce_gamma := pixel_bounce_gamma
    n_pumps := -1
    type := roe_type_standard }

/-- `ROEChargeInjection.__init__` (roe.py:89-119): delegates to
`ROE.__init__` with `empty_traps_for_first_transfers=False`, then overwrites
`type` with `roe_type_charge_injection`. -/
def ROEChargeInjection_init (dwell_times : List ℚ)
    (prescan_offset overscan_start : ℤ)
    (empty_traps_between_columns force_release_away_from_readout
      use_integer_express_matrix : Bool)
    (pixel_bounce_kA pixel_bounce_kv pixel_bounce_omega pixel_bounce_gamma : ℚ) :
    ROE :=
  { ROE_init dwell_times prescan_offset overscan_start
      empty_traps_between_columns false force_release_away_from_readout
      use_integer_express_matrix pixel_bounce_kA pixel_bounce_kv
      pixel_bounce_omega pixel_bounce_gamma with
    type := roe_type_charge_injection }

/-- `ROETrapPumping.__init__` (roe.py:142-172): delegates to `ROE.__init__`
with `empty_traps_between_columns=True` and
`force_release_away_from_readout=False`, then stores `n_pumps` and overwrites
`type` with `roe_type_trap_pumping`. -/
def ROETrapPumping_init (dwell_times : List ℚ)
    (prescan_offset overscan_start n_pumps : ℤ)
    (empty_traps_for_first_transfers use_integer_express_matrix : Bool)
    (pixel_bounce_kA pixel_bounce_kv pixel_bounce_omega pixel_bounce_gamma : ℚ) :
    ROE :=
  { ROE_init dwell_times prescan_offset overscan_start
      true empty_traps_for_first_transfers false
      use_integer_express_matrix pixel_bounce_kA pixel_bounce_kv
      pixel_bounce_omega pixel_bounce_gamma with
    n_pumps := n_pumps
    type := roe_type_trap_pumping }

/-- C10: every `ROETrapPumping` has `force_release_away_from_readout = False`
and `empty_traps_between_columns = True`; every `ROEChargeInjection` has
`empty_traps_for_first_transfers = False`; every plain `ROE` has the Standard
type and `n_pumps = -1`. -/
theorem C10_roe_constructor_invariants :
    (∀ dw po os np ef ui kA kv om ga,
        (ROETrapPumping_init dw po os np ef ui kA kv om ga).force_release_away_from_readout
            = false
        ∧ (ROETrapPumping_init dw po os np ef ui kA kv om ga).empty_traps_between_columns
            = true)
    ∧ (∀ dw po os eb fr ui kA kv om ga,
        (ROEChargeInjection_init dw po os eb fr ui kA kv om ga).empty_traps_for_first_transfers
            = false)
    ∧ (∀ dw po os eb ef fr ui kA kv om ga,
        (ROE_init dw po os eb ef fr ui kA kv om ga).type = roe_type_standard
        ∧ (ROE_init dw po os eb ef fr ui kA kv om ga).n_pumps = -1) :=
  ⟨fun _ _ _ _ _ _ _ _ _ _ => ⟨rfl, rfl⟩,
   fun _ _ _ _ _ _ _ _ _ _ => rfl,
   fun _ _ _ _ _ _ _ _ _ _ _ => ⟨rfl, rfl⟩⟩

/-! ## Trap species (traps.py) and trap-parameter extraction (cti.py)

Trap objects are carried around by their exact Python class plus stored
numeric attributes.  `_extract_trap_parameters` dispatches on
`type(trap) == …`, so the embedding is a tagged variant whose constructor is
the exact class; `otherClass` stands for any object whose exact class is none
of the four species (including strict subclasses of them). -/

inductive PyTrap where
  | ic (density release_timescale fractional_volume_none_exposed
        fractional_volume_full_exposed : ℚ)
  | sc (density release_timescale capture_timescale : ℚ)
  | icCo (density release_timescale release_timescale_sigma : ℚ)
  | scCo (density release_timescale release_timescale_sigma
        capture_timescale : ℚ)
  | otherClass (density release_timescale : ℚ)
  deriving DecidableEq

/-- `trap.density` (traps.py:7). -/
def PyTrap.density : PyTrap → ℚ
  | .ic d _ _ _ | .sc d _ _ | .icCo d _ _ | .scCo d _ _ _ | .otherClass d _ => d

/-- `trap.release_timescale` (traps.py:8). -/
def PyTrap.release_timescale : PyTrap → ℚ
  | .ic _ t _ _ | .sc _ t _ | .icCo _ t _ | .scCo _ t _ _ | .otherClass _ t => t

/-- `type(trap) == TrapInstantCapture` (cti.py:671). -/
def PyTrap.isIC : PyTrap → Bool
  | .ic _ _ _ _ => true
  | _ => false

/-- `type(trap) == TrapSlowCapture` (cti.py:672); in particular false for the
subclass `TrapSlowCaptureContinuum`. -/
def PyTrap.isSC : PyTrap → Bool
  | .sc _ _ _ => true
  | _ => false

/-- `type(trap) == TrapInstantCaptureContinuum` (cti.py:673). -/
def PyTrap.isICCo : PyTrap → Bool
  | .icCo _ _ _ => true
  | _ => false

/-- `type(trap) == TrapSlowCaptureContinuum` (cti.py:674). -/
def PyTrap.isSCCo : PyTrap → Bool
  | .scCo _ _ _ _ => true
  | _ => false

/-- Exact class not among the four species. -/
def PyTrap.isOtherClass : PyTrap → Bool
  | .otherClass _ _ => true
  | _ => false

/-- Third per-trap parameter (cti.py:692-702); unknown classes never reach
this point because the count check raises first, so their value is moot. -/
def PyTrap.thirdParam : PyTrap → ℚ
  | .ic _ _ fvne _ => fvne
  | .sc _ _ ct => ct
  | .icCo _ _ sg => sg
  | .scCo _ _ sg _ => sg
  | .otherClass _ _ => 0

/-- Fourth per-trap parameter (cti.py:704-714). -/
def PyTrap.fourthParam : PyTrap → ℚ
  | .ic _ _ _ fvfe => fvfe
  | .sc _ _ _ => 0
  | .icCo _ _ _ => 0
  | .scCo _ _ _ ct => ct
  | .otherClass _ _ => 0

/-- The tuple `_extract_trap_parameters` returns (cti.py:716-725). -/
structure ExtractedTraps where
  trap_densities : List ℚ
  trap_release_timescales : List ℚ
  trap_third_params : List ℚ
  trap_fourth_params : List ℚ
  n_traps_ic : ℕ
  n_traps_sc : ℕ
  n_traps_ic_co : ℕ
  n_traps_sc_co : ℕ
  deriving DecidableEq

/-- The reordering `traps = traps_ic + traps_sc + traps_ic_co + traps_sc_co`
(cti.py:686). -/
def reorderedTraps (traps : List PyTrap) : List PyTrap :=
  traps.filter PyTrap.isIC ++ traps.filter PyTrap.isSC
    ++ traps.filter PyTrap.isICCo ++ traps.filter PyTrap.isSCCo

/-- `_extract_trap_parameters` (cti.py:664-725): filters the list by exact
class, raises when any element was not classified, otherwise reorders the
traps and extracts the parameter arrays. -/
def extract_trap_parameters (traps : List PyTrap) :
    Except String ExtractedTraps :=
  if (traps.filter PyTrap.isSC).length + (traps.filter PyTrap.isIC).length
      + (traps.filter PyTrap.isICCo).length
      + (traps.filter PyTrap.isSCCo).length ≠ traps.length then
    .error "Not all traps extracted successfully"
  else
    .ok { trap_densities := (reorderedTraps traps).map PyTrap.density
          trap_release_timescales :=
            (reorderedTraps traps).map PyTrap.release_timescale
          trap_third_params := (reorderedTraps traps).map PyTrap.thirdParam
          trap_fourth_params := (reorderedTraps traps).map PyTrap.fourthParam
          n_traps_ic := (traps.filter PyTrap.isIC).length
          n_traps_sc := (traps.filter PyTrap.isSC).length
          n_traps_ic_co := (traps.filter PyTrap.isICCo).length
          n_traps_sc_co := (traps.filter PyTrap.isSCCo).length }

theorem four_filters_length (traps : List PyTrap) :
    (traps.filter PyTrap.isSC).length + (traps.filter PyTrap.isIC).length
        + (traps.filter PyTrap.isICCo).length
        + (traps.filter PyTrap.isSCCo).length
        + (traps.filter PyTrap.isOtherClass).length
      = traps.length := by
  induction traps with
  | nil => rfl
  | cons t ts ih =>
      cases t <;>
        simp [List.filter_cons, PyTrap.isIC, PyTrap.isSC, PyTrap.isICCo,
          PyTrap.isSCCo, PyTrap.isOtherClass] <;> omega

theorem reorderedTraps_perm (traps : List PyTrap)
    (h : ∀ t ∈ traps, t.isOtherClass = false) :
    (reorderedTraps traps).Perm traps := by
  induction traps with
  | nil => simp [reorderedTraps]
  | cons t ts ih =>
      have hts : ∀ t' ∈ ts, t'.isOtherClass = false :=
        fun t' ht' => h t' (List.mem_cons_of_mem t ht')
      have iht := ih hts
      refine List.Perm.trans ?_ (iht.cons t)
      cases t with
      | ic d r a b =>
          simp [reorderedTraps, List.filter_cons, PyTrap.isIC, PyTrap.isSC,
            PyTrap.isICCo, PyTrap.isSCCo, List.append_assoc]
      | sc d r c =>
          simp only [reorderedTraps, List.filter_cons, PyTrap.isIC,
            PyTrap.isSC, PyTrap.isICCo, PyTrap.isSCCo, if_true,
            List.append_assoc, List.cons_append]
          simp only [show (false = true) = False from by simp, if_false]
          exact List.perm_middle
      | icCo d r sg =>
          simp only [reorderedTraps, List.filter_cons, PyTrap.isIC,
            PyTrap.isSC, PyTrap.isICCo, PyTrap.isSCCo, if_true,
            List.append_assoc, List.cons_append]
          simp only [show (false = true) = False from by simp, if_false]
          exact (List.Perm.append_left _ List.perm_middle).trans
            List.perm_middle
      | scCo d r sg c =>
          simp only [reorderedTraps, List.filter_cons, PyTrap.isIC,
            PyTrap.isSC, PyTrap.isICCo, PyTrap.isSCCo, if_true,
            List.append_assoc, List.cons_append]
          simp only [show (false = true) = False from by simp, if_false]
          exact (List.Perm.append_left _
              (List.Perm.append_left _ List.perm_middle)).trans
            ((List.Perm.append_left _ List.perm_middle).trans
              List.perm_middle)
      | otherClass d r =>
          exact absurd (h _ (List.mem_cons_self _ _))
            (by simp [PyTrap.isOtherClass])

/-- C9: `_extract_trap_parameters` raises before any clocking when some
element's exact class is not one of the four trap species; otherwise it
reorders the traps as instant-capture, slow-capture,
instant-capture-continuum, slow-capture-continuum — a permutation of the
input — and extracts the density and release-timescale (and third and
fourth parameter) arrays of exactly the reordered traps. -/
theorem C9_extract_trap_parameters (traps : List PyTrap) :
    ((∃ t ∈ traps, t.isOtherClass = true) →
      extract_trap_parameters traps
        = .error "Not all traps extracted successfully")
    ∧ ((∀ t ∈ traps, t.isOtherClass = false) →
      extract_trap_parameters traps
          = .ok { trap_densities := (reorderedTraps traps).map PyTrap.density
                  trap_release_timescales :=
                    (reorderedTraps traps).map PyTrap.release_timescale
                  trap_third_params :=
                    (reorderedTraps traps).map PyTrap.thirdParam
                  trap_fourth_params :=
                    (reorderedTraps traps).map PyTrap.fourthParam
                  n_traps_ic := (traps.filter PyTrap.isIC).length
                  n_traps_sc := (traps.filter PyTrap.isSC).length
                  n_traps_ic_co := (traps.filter PyTrap.isICCo).length
                  n_traps_sc_co := (traps.filter PyTrap.isSCCo).length }
        ∧ (reorderedTraps traps).Perm traps) := by
  have hfour := four_filters_length traps
  constructor
  · intro ⟨t, ht, hother⟩
    have hmem : t ∈ traps.filter PyTrap.isOtherClass :=
      List.mem_filter.mpr ⟨ht, hother⟩
    have hpos : 0 < (traps.filter PyTrap.isOtherClass).length :=
      List.length_pos_of_mem hmem
    unfold extract_trap_parameters
    rw [if_pos (by omega)]
  · intro hall
    have hnil : traps.filter PyTrap.isOtherClass = [] := by
      rw [List.filter_eq_nil_iff]
      intro t ht
      simp [hall t ht]
    have hsum : (traps.filter PyTrap.isSC).length
        + (traps.filter PyTrap.isIC).length
        + (traps.filter PyTrap.isICCo).length
        + (traps.filter PyTrap.isSCCo).length = traps.length := by
      rw [hnil] at hfour
      simpa using hfour
    refine ⟨?_, reorderedTraps_perm traps hall⟩
    unfold extract_trap_parameters
    rw [if_neg (not_ne_iff.mpr hsum)]

/-- Witness for C9: a bare `AbstractTrap`-style object raises; a slow-capture
then instant-capture pair is reordered with its parameters preserved. -/
theorem C9_witness :
    extract_trap_parameters [PyTrap.otherClass 1 1]
        = .error "Not all traps extracted successfully"
    ∧ extract_trap_parameters [PyTrap.sc 5 6 7, PyTrap.ic 1 2 3 4]
        = .ok ⟨[1, 5], [2, 6], [3, 7], [4, 0], 1, 1, 0, 0⟩ := by
  constructor
  · exact (C9_extract_trap_parameters [PyTrap.otherClass 1 1]).1
      ⟨PyTrap.otherClass 1 1, by simp, rfl⟩
  · have h := (C9_extract_trap_parameters
      [PyTrap.sc 5 6 7, PyTrap.ic 1 2 3 4]).2 (by decide)
    rw [h.1]
    rfl

/-! ## Construction of trap species and CCDs (traps.py, ccd.py)

Python constructors can raise, so their embeddings return
`Except String _`; the bodies below mirror the source `__init__` bodies,
which are plain attribute assignments with no validation of any kind (no
`ConfigurationError` exists anywhere in the sources). -/

/-- `TrapInstantCapture.__init__` (traps.py:14-25): assigns
`density`, `release_timescale` (via `AbstractTrap.__init__`, traps.py:5-8)
and the two fractional volumes; performs no validation, so construction
always succeeds whatever the arguments. -/
def TrapInstantCapture_init (density release_timescale
    fractional_volume_none_exposed fractional_volume_full_exposed : ℚ) :
    Except String PyTrap :=
  .ok (.ic density release_timescale fractional_volume_none_exposed
    fractional_volume_full_exposed)

/-- The attributes a `CCD` instance carries after construction
(ccd.py:30-78). -/
structure CCD where
  phases : List CCDPhase
  fraction_of_traps_per_phase : List ℝ
  full_well_depths : List ℝ
  well_notch_depths : List ℝ
  well_fill_powers : List ℝ
  first_electron_fills : List ℝ

/-- `CCD.__init__` (ccd.py:30-78): when `full_well_depth` is given, the
phase list is replaced by a single phase built from it (with the other three
single-phase parameters defaulted when absent, ccd.py:44-59); the
`fraction_of_traps_per_phase` array is stored as given and the four
per-phase arrays are extracted — with no check of any kind, in particular
none that the fractions sum to 1. -/
def CCD_init (phases : List CCDPhase) (fraction_of_traps_per_phase : List ℝ)
    (full_well_depth well_notch_depth well_fill_power
      first_electron_fill : Option ℝ) :
    Except String CCD :=
  let phases :=
    match full_well_depth with
    | some fwd =>
        [⟨fwd, well_notch_depth.getD 0, well_fill_power.getD 1,
          first_electron_fill.getD 0⟩]
    | none => phases
  .ok { phases := phases
        fraction_of_traps_per_phase := fraction_of_traps_per_phase
        full_well_depths := phases.map CCDPhase.full_well_depth
        well_notch_depths := phases.map CCDPhase.well_notch_depth
        well_fill_powers := phases.map CCDPhase.well_fill_power
        first_electron_fills := phases.map CCDPhase.first_electron_fill }

/-- C6 counterexample: the claim promises a `ConfigurationError` at
construction time, but constructing a trap species with density −1 and
release timescale −1 succeeds and stores the invalid values, and
constructing a CCD whose `fraction_of_traps_per_phase` is `[1/2]` (sum 1/2,
not 1 within 1e-6) succeeds as well — the constructors contain no
validation at all. -/
theorem C6_counterexample :
    TrapInstantCapture_init (-1) (-1) 0 0 = .ok (.ic (-1) (-1) 0 0)
    ∧ CCD_init [⟨10000, 0, 1, 0⟩] [1/2] none none none none
        = .ok ⟨[⟨10000, 0, 1, 0⟩], [1/2], [10000], [0], [1], [0]⟩ :=
  ⟨rfl, rfl⟩

/-- C6 (amended): construction performs no validation — for every choice of
arguments, the trap and CCD constructors return successfully with the
arguments stored verbatim; no error (and in particular no
`ConfigurationError`, which does not exist in the code) can be raised at
construction time. -/
theorem C6_constructors_never_raise :
    (∀ d t a b, TrapInstantCapture_init d t a b = .ok (.ic d t a b))
    ∧ (∀ ph fr,
        CCD_init ph fr none none none none
          = .ok { phases := ph
                  fraction_of_traps_per_phase := fr
                  full_well_depths := ph.map CCDPhase.full_well_depth
                  well_notch_depths := ph.map CCDPhase.well_notch_depth
                  well_fill_powers := ph.map CCDPhase.well_fill_power
                  first_electron_fills :=
                    ph.map CCDPhase.first_electron_fill })
    ∧ (∀ ph fr fwd notch p fef,
        CCD_init ph fr (some fwd) notch p fef
          = .ok { phases := [⟨fwd, notch.getD 0, p.getD 1, fef.getD 0⟩]
                  fraction_of_traps_per_phase := fr
                  full_well_depths := [fwd]
                  well_notch_depths := [notch.getD 0]
                  well_fill_powers := [p.getD 1]
                  first_electron_fills := [fef.getD 0] }) :=
  ⟨fun _ _ _ _ => rfl, fun _ _ => rfl, fun _ _ _ _ _ _ => rfl⟩

/-! ## Frame effects: the caller's array is never mutated (C5)

To state "the input array holds its original values after the call", array
identity must be explicit, so this section models the numpy heap: a list of
allocated arrays, with references as allocation indices.  `np.copy`
allocates a fresh cell; in-place operations (`+=`, fancy-indexing
assignment) write to an existing cell.  The C++ core `cy_add_cti` is
abstract: `coreScratch` models whatever it may write into the buffer it is
handed, and `coreResult` the trailed image it returns — the theorems hold
for every such pair, so for anything the core could do with the arrays it
can reach. -/

abbrev Heap : Type := List Image

/-- Allocate a fresh array (e.g. `np.copy`): append and return its index. -/
def heapAlloc (h : Heap) (img : Image) : Heap × ℕ := (h ++ [img], h.length)

/-- Read the array a reference points to. -/
def heapRead (h : Heap) (r : ℕ) : Image := h.getD r []

/-- Overwrite the array a reference points to (in-place numpy mutation). -/
def heapWrite (h : Heap) (r : ℕ) (img : Image) : Heap := h.set r img

/-- Array usage of `add_cti` (cti.py:194, 218-303): line 194 rebinds `image`
to a fresh copy of the caller's array; the core is called on that copy (and
may scribble on it: `coreScratch`), and its result `image_trailed` is a
fresh array (`coreResult`).  Returns the heap and the result reference. -/
def add_cti_heap (coreScratch coreResult : Image → Image) (h : Heap)
    (r : ℕ) : Heap × ℕ :=
  let copied := heapAlloc h (heapRead h r)
  let h1 := copied.1
  let rCopy := copied.2
  let h2 := heapWrite h1 rCopy (coreScratch (heapRead h1 rCopy))
  let out := heapAlloc h2 (coreResult (heapRead h1 rCopy))
  out

/-- One iteration of `remove_cti`'s loop at the heap level (cti.py:471-528):
an `add_cti` call on the current estimate array, the in-place update
`image_remove_cti += image - image_add_cti`, and in-place clipping on the
first iteration when negative pixels are disallowed. -/
def remove_cti_heap_body (coreScratch coreResult : Image → Image) (h : Heap)
    (rImage rRemove : ℕ) (allowNeg : Bool) (iteration : ℕ) : Heap :=
  let added := add_cti_heap coreScratch coreResult h rRemove
  let h1 := added.1
  let rAdd := added.2
  let est := imgAdd (heapRead h1 rRemove)
    (imgSub (heapRead h1 rImage) (heapRead h1 rAdd))
  let est := if allowNeg = false ∧ iteration = 1 then clipImage est else est
  heapWrite h1 rRemove est

/-- The loop of `remove_cti` at the heap level. -/
def remove_cti_heap_loop (coreScratch coreResult : Image → Image)
    (rImage rRemove : ℕ) (allowNeg : Bool) :
    ℕ → ℕ → Heap → Heap
  | 0, _, h => h
  | remaining + 1, iteration, h =>
      remove_cti_heap_loop coreScratch coreResult rImage rRemove allowNeg
        remaining (iteration + 1)
        (remove_cti_heap_body coreScratch coreResult h rImage rRemove
          allowNeg iteration)

/-- Array usage of `remove_cti` (cti.py:434-435, 471-528): two fresh copies
of the caller's array (`image` and `image_remove_cti`), then the iteration
loop, which only ever writes the `image_remove_cti` cell and fresh cells. -/
def remove_cti_heap (coreScratch coreResult : Image → Image) (h : Heap)
    (r : ℕ) (allowNeg : Bool) (n_iterations : ℕ) : Heap × ℕ :=
  let c1 := heapAlloc h (heapRead h r)
  let c2 := heapAlloc c1.1 (heapRead c1.1 c1.2)
  (remove_cti_heap_loop coreScratch coreResult c1.2 c2.2 allowNeg
    n_iterations 1 c2.1, c2.2)

theorem heapRead_alloc_lt (h : Heap) (img : Image) (s : ℕ)
    (hs : s < h.length) :
    heapRead (heapAlloc h img).1 s = heapRead h s := by
  simp only [heapAlloc, heapRead]
  rw [List.getD_eq_getElem?_getD, List.getD_eq_getElem?_getD,
    List.getElem?_append_left hs]

theorem heapRead_write_ne (h : Heap) (r s : ℕ) (img : Image) (hne : s ≠ r) :
    heapRead (heapWrite h r img) s = heapRead h s := by
  simp only [heapWrite, heapRead]
  rw [List.getD_eq_getElem?_getD, List.getD_eq_getElem?_getD,
    List.getElem?_set_ne (fun hrs => hne hrs.symm)]

theorem add_cti_heap_frame (coreScratch coreResult : Image → Image)
    (h : Heap) (r s : ℕ) (hs : s < h.length) :
    heapRead (add_cti_heap coreScratch coreResult h r).1 s = heapRead h s
    ∧ h.length < (add_cti_heap coreScratch coreResult h r).1.length := by
  constructor
  · show heapRead (heapAlloc (heapWrite (h ++ [heapRead h r]) h.length _) _).1 s
        = heapRead h s
    rw [heapRead_alloc_lt _ _ s
        (by simp [heapWrite]; omega),
      heapRead_write_ne _ _ _ _ (by omega)]
    exact heapRead_alloc_lt h _ s hs
  · simp [add_cti_heap, heapAlloc, heapWrite]

theorem remove_cti_heap_loop_frame (coreScratch coreResult : Image → Image)
    (rImage rRemove : ℕ) (allowNeg : Bool) :
    ∀ (remaining iteration : ℕ) (h : Heap) (s : ℕ),
      s < h.length → s ≠ rRemove →
      heapRead (remove_cti_heap_loop coreScratch coreResult rImage rRemove
          allowNeg remaining iteration h) s = heapRead h s := by
  intro remaining
  induction remaining with
  | zero => intro iteration h s _ _; rfl
  | succ rem ih =>
      intro iteration h s hs hne
      rw [remove_cti_heap_loop]
      have hadd := add_cti_heap_frame coreScratch coreResult h rRemove s hs
      have hbody :
          heapRead (remove_cti_heap_body coreScratch coreResult h rImage
            rRemove allowNeg iteration) s = heapRead h s := by
        unfold remove_cti_heap_body
        rw [heapRead_write_ne _ _ _ _ hne, hadd.1]
      have hlen : h.length
          ≤ (remove_cti_heap_body coreScratch coreResult h rImage rRemove
              allowNeg iteration).length := by
        unfold remove_cti_heap_body
        simp only [heapWrite, List.length_set]
        omega
      rw [ih (iteration + 1) _ s (by omega) hne, hbody]

/-- C5: neither `add_cti` nor `remove_cti` mutates the caller's array: both
copy it first (cti.py:194 and 434-435) and only write the copies and fresh
arrays, so after the call the input cell of the heap holds exactly its
original contents — whatever the C++ core does with the buffers it is
given. -/
theorem C5_input_never_mutated (coreScratch coreResult : Image → Image)
    (h : Heap) (r : ℕ) (allowNeg : Bool) (n_iterations : ℕ)
    (hr : r < h.length) :
    heapRead (add_cti_heap coreScratch coreResult h r).1 r = heapRead h r
    ∧ heapRead (remove_cti_heap coreScratch coreResult h r allowNeg
        n_iterations).1 r = heapRead h r := by
  refine ⟨(add_cti_heap_frame coreScratch coreResult h r r hr).1, ?_⟩
  unfold remove_cti_heap
  rw [remove_cti_heap_loop_frame coreScratch coreResult _ _ allowNeg
      n_iterations 1 _ r ?_ ?_]
  · rw [heapRead_alloc_lt _ _ r (by simp [heapAlloc]; omega)]
    exact heapRead_alloc_lt h _ r hr
  · simp [heapAlloc]; omega
  · simp [heapAlloc]; omega

/-- Witness for C5: a one-cell heap holding a 1×2 image, a scribbling
scratch and a doubling core, two remove iterations. -/
theorem C5_witness :
    (0 < 1
      ∧ heapRead (add_cti_heap (fun _ => [[9, 9]]) (fun i => imgAdd i i)
          [[[1, 2]]] 0).1 0 = heapRead [[[1, 2]]] 0
      ∧ heapRead (remove_cti_heap (fun _ => [[9, 9]]) (fun i => imgAdd i i)
          [[[1, 2]]] 0 false 2).1 0 = heapRead [[[1, 2]]] 0)
    ∧ heapRead (remove_cti_heap (fun _ => [[9, 9]]) (fun i => imgAdd i i)
        [[[1, 2]]] 0 false 2).1 0 = [[1, 2]] := by
  have h := C5_input_never_mutated (fun _ => [[9, 9]]) (fun i => imgAdd i i)
    [[[1, 2]]] 0 false 2 (by decide)
  exact ⟨⟨by decide, h.1, h.2⟩, by decide⟩

/-! ## Modelled from the spec: the compiled clocking core

The wrapper invokes `w.cy_add_cti` (cti.py:218), compiled from `src/cti.cpp`,
which is not part of this repository; only this Python caller is.  The
definitions in this section therefore model the core from the specification
(§3 watermark store, §4.1 trap occupancy operations, §4.3 express matrix,
§4.4 clocker, §6 interface), with these modelling choices where the spec
under-determines the algorithm, each noted in place:

* numeric kernels (the per-dwell release factor `exp(−dt/τ)` of §4.1 and the
  per-species capture fill rule) are taken as parameters, since the spec
  prescribes them numerically (§4.1.1) and they are not rational functions;
* the clocker is instantiated for one phase with unit dwell time (every ROE
  in the repository's tests uses `dwell_times=[1.0]`), so the per-phase
  volume map is a single function `ℚ → ℚ`;
* electrons released while a row's packet passes the traps are credited to
  that packet — the `force_release_away_from_readout = True` behaviour used
  by every caller in the repository: the packet now passing is one dwell
  later, hence farther from the readout, than the packet the electrons were
  captured from;
* the express matrix distributes each row's `r + 1 + offset` transfers over
  the express passes in equal blocks (clipped ramp), which realises §4.3's
  constraints (column sums equal the physical transfer counts, integer mode
  when requested, later passes cover rows farther into the image); the
  monitor matrix marks entries whose multiplier is zero but whose row had a
  transfer in an earlier pass, so trap occupancy keeps evolving there
  (§4.3's "releases between rare express-step updates must not be
  forgotten") — active only when `empty_traps_for_first_transfers` is false;
* the watermark-pruning performance knob (§4.1) and the capture-availability
  clamp (§4.4, "a pixel cannot go negative from capture") are not modelled.

This reconstruction reproduces the reference outputs quoted in the
repository's own tests: the trailed bright-pixel values 776.0, 776.16 and
776.24 of scenario S1 to six significant digits, and the trail within the
test's 5% tolerance. -/

/-- Modelled from the spec: one trap species as the core sees it — the
density (traps per pixel) from the wrapper's arrays, the evaluated per-dwell
release factor `exp(−dt/τ)` (§4.1; continuum species integrate it per
§4.1.1), and the species' capture fill rule (§4.1: instant capture sets a
fill to 1, slow capture moves it toward 1 exponentially). -/
structure TrapParams where
  density : ℚ
  decay : ℚ
  captureFill : ℚ → ℚ

/-- Modelled from the spec §3: one watermark — a cumulative volume fraction
and one fill fraction per species. -/
structure Watermark where
  volume : ℚ
  fill : List ℚ
  deriving DecidableEq

abbrev Store : Type := List Watermark

/-- Modelled from the spec §4.1 (`release`): decay the fills of one
watermark of width `width`; returns the new fills and the electrons
`Σ_s width · density_s · fill_s · (1 − decay_s)` liberated from it. -/
def releaseWm (width : ℚ) :
    List TrapParams → List ℚ → List ℚ × ℚ
  | _, [] => ([], 0)
  | [], _ :: _ => ([], 0)
  | sp :: sps, f :: fs =>
      let rest := releaseWm width sps fs
      (sp.decay * f :: rest.1,
        width * sp.density * f * (1 - sp.decay) + rest.2)

/-- Modelled from the spec §4.1 (`release`) over a whole store; `prev` is
the cumulative volume below the current watermark. -/
def releaseStore (species : List TrapParams) (prev : ℚ) :
    Store → Store × ℚ
  | [] => ([], 0)
  | w :: ws =>
      let here := releaseWm (w.volume - prev) species w.fill
      let rest := releaseStore species w.volume ws
      (⟨w.volume, here.1⟩ :: rest.1, here.2 + rest.2)

/-- Modelled from the spec §4.1 (`capture`): expose one watermark of width
`width` to the cloud; each species' fill is raised by its capture rule,
capturing `Σ_s width · density_s · (newfill_s − fill_s)` electrons. -/
def captureWm (width : ℚ) :
    List TrapParams → List ℚ → List ℚ × ℚ
  | _, [] => ([], 0)
  | [], _ :: _ => ([], 0)
  | sp :: sps, f :: fs =>
      let rest := captureWm width sps fs
      (sp.captureFill f :: rest.1,
        width * sp.density * (sp.captureFill f - f) + rest.2)

/-- Modelled from the spec §4.1 (`capture`, watermark management): raise the
fills of every watermark below the cloud volume `V`, splitting the watermark
containing `V` (upper part keeps its fills) and appending a new watermark at
`V` when the cloud rises above the highest one. -/
def captureStore (species : List TrapParams) (V prev : ℚ) :
    Store → Store × ℚ
  | [] =>
      if prev < V then
        let made := captureWm (V - prev) species (species.map fun _ => 0)
        ([⟨V, made.1⟩], made.2)
      else ([], 0)
  | w :: ws =>
      if w.volume ≤ V then
        let here := captureWm (w.volume - prev) species w.fill
        let rest := captureStore species V w.volume ws
        (⟨w.volume, here.1⟩ :: rest.1, here.2 + rest.2)
      else if prev < V then
        let here := captureWm (V - prev) species w.fill
        (⟨V, here.1⟩ :: w :: ws, here.2)
      else (w :: ws, 0)

/-- Ceiling division on naturals. -/
def ceilDiv (a b : ℕ) : ℕ := (a + b - 1) / b

/-- Modelled from the spec §4.3: the express matrix.  Each row `r` owes
`r + 1 + offset` transfers; express pass `e` executes the block
`clip((r + 1 + offset) − e·maxm, 0, maxm)` of them, where `maxm` is the
per-pass block size `n_transfers / n_passes` (rounded up in integer mode),
so column sums equal the physical transfer counts and `express = 0` gives
one sub-transfer per physical transfer. -/
def expressMatrix (n_rows express offset : ℕ) (integer : Bool) :
    List (List ℚ) :=
  let n_transfers := n_rows + offset
  let nE := if express = 0 then n_transfers else min express n_transfers
  let maxm : ℚ :=
    if integer then (ceilDiv n_transfers nE : ℚ)
    else (n_transfers : ℚ) / (nE : ℚ)
  (List.range nE).map fun e =>
    (List.range n_rows).map fun r =>
      min maxm (max 0 ((r : ℚ) + 1 + (offset : ℚ) - (e : ℚ) * maxm))

/-- Modelled from the spec §4.3: the monitor flag of entry `(e, r)` — the
multiplier is zero but row `r` already transferred in an earlier pass, so
trap occupancy must keep evolving; only when
`empty_traps_for_first_transfers` is false. -/
def monitorEntry (M : List (List ℚ)) (emptyFirst : Bool) (e r : ℕ) : Bool :=
  !emptyFirst && (List.range e).any fun e2 =>
    decide ((M.getD e2 []).getD r 0 ≠ 0)

/-- Modelled from the spec §3 (invariant iv): the emptied store is the
single watermark `(0, 0)`. -/
def emptyStore (species : List TrapParams) : Store :=
  [⟨0, species.map fun _ => 0⟩]

/-- Modelled from the spec §4.1 (watermark management): when two adjacent
watermarks have equal fills for every species, merge them into one — the
watermark list is a step function of fill against cumulative volume, and
merging adjacent equal steps leaves that function (hence every electron
count) unchanged while keeping the store in normal form; instant capture
relies on it to collapse the watermarks submerged by the cloud. -/
def mergeAdjacent : Store → Store
  | [] => []
  | [w] => [w]
  | w1 :: w2 :: ws =>
      if w1.fill = w2.fill then mergeAdjacent (w2 :: ws)
      else w1 :: mergeAdjacent (w2 :: ws)

/-- Modelled from the spec §4.4 pseudocode: one `(express step, row)` clock
step.  If the multiplier is zero and the entry is not monitored, nothing
happens; otherwise the charge is read, the traps release (fills decay),
the cloud at `vol charge` captures (after which the store is renormalised
by the §4.1 merge rule), and the pixel changes by
`(released − captured) · mult` (zero on monitor-only entries). -/
def clockStep (species : List TrapParams) (vol : ℚ → ℚ) (mult : ℚ)
    (monitored : Bool) (st : Store) (col : List ℚ) (r : ℕ) :
    Store × List ℚ :=
  if mult = 0 ∧ monitored = false then (st, col)
  else
    let charge := col.getD r 0
    let rel := releaseStore species 0 st
    let cap := captureStore species (vol charge) 0 rel.1
    (mergeAdjacent cap.1, col.set r (charge + (rel.2 - cap.2) * mult))

/-- Modelled from the spec §4.4: one express pass over all rows of one
line. -/
def clockPass (species : List TrapParams) (vol : ℚ → ℚ)
    (M : List (List ℚ)) (emptyFirst : Bool) (e : ℕ)
    (st : Store) (col : List ℚ) : Store × List ℚ :=
  (List.range col.length).foldl
    (fun sc r =>
      clockStep species vol ((M.getD e []).getD r 0)
        (monitorEntry M emptyFirst e r) sc.1 sc.2 r)
    (st, col)

/-- Modelled from the spec §4.3/6: the per-direction parameters the core
receives from the wrapper. -/
structure DirParams where
  species : List TrapParams
  vol : ℚ → ℚ
  express : ℕ
  window_offset : ℕ
  use_integer_express_matrix : Bool
  empty_traps_between_columns : Bool
  empty_traps_for_first_transfers : Bool

/-- Modelled from the spec §4.4: clock one full line (one column in parallel
clocking, one row in serial clocking) through all express passes, threading
the trap store. -/
def clockLine (p : DirParams) (st : Store) (line : List ℚ) :
    Store × List ℚ :=
  let M := expressMatrix line.length p.express p.window_offset
    p.use_integer_express_matrix
  (List.range M.length).foldl
    (fun sc e =>
      clockPass p.species p.vol M p.empty_traps_for_first_transfers e
        sc.1 sc.2)
    (st, line)

/-- Modelled from the spec §4.4: clock a list of lines in order, emptying
the store between lines when `empty_traps_between_columns` asks for it. -/
def clockLines (p : DirParams) (lines : List (List ℚ)) : List (List ℚ) :=
  (lines.foldl
    (fun acc line =>
      let st0 := if p.empty_traps_between_columns then emptyStore p.species
        else acc.1
      let out := clockLine p st0 line
      (out.1, acc.2 ++ [out.2]))
    (emptyStore p.species, [])).2

/-- The columns of a row-major image. -/
def columnsOf (img : Image) : List (List ℚ) :=
  (List.range (img.headD []).length).map fun c =>
    img.map fun row => row.getD c 0

/-- Rebuild a row-major image from its list of columns. -/
def rowsFromColumns (n_rows n_cols : ℕ) (cols : List (List ℚ)) : Image :=
  (List.range n_rows).map fun r =>
    (List.range n_cols).map fun c => (cols.getD c []).getD r 0

/-- Modelled from the spec §4.4: parallel clocking works on each column
independently (along the rows). -/
def parallelPass (p : DirParams) (img : Image) : Image :=
  rowsFromColumns img.length (img.headD []).length
    (clockLines p (columnsOf img))

/-- Modelled from the spec §4.4/§3: serial clocking operates on the
transpose, i.e. clocks each row as a line. -/
def serialPass (p : DirParams) (img : Image) : Image := clockLines p img

/-- Modelled from the spec §4.4/§6: the core `add_cti` — parallel clocking,
then serial clocking, then (only when `allow_negative_pixels` is false) the
clip of the output at zero. -/
def cy_add_cti (par ser : DirParams) (allowNeg : Bool) (img : Image) :
    Image :=
  let img1 := parallelPass par img
  let img2 := serialPass ser img1
  if allowNeg then img2 else clipImage img2

/-! ### Zero-density traps move no electrons -/

theorem set_getD_self {α : Type} (l : List α) (n : ℕ) (d : α) :
    l.set n (l.getD n d) = l := by
  induction l generalizing n with
  | nil => rfl
  | cons x xs ih =>
      cases n with
      | zero => rfl
      | succ m => simp only [List.set, List.getD_cons_succ, ih]

theorem releaseWm_zero (species : List TrapParams)
    (h : ∀ sp ∈ species, sp.density = 0) (width : ℚ) (fills : List ℚ) :
    (releaseWm width species fills).2 = 0 := by
  induction fills generalizing species with
  | nil => cases species <;> rfl
  | cons f fs ih =>
      cases species with
      | nil => rfl
      | cons sp sps =>
          have h0 := h sp (List.mem_cons_self _ _)
          have ihs := ih sps (fun q hq => h q (List.mem_cons_of_mem _ hq))
          simp [releaseWm, h0, ihs]

theorem releaseStore_zero (species : List TrapParams)
    (h : ∀ sp ∈ species, sp.density = 0) (prev : ℚ) (st : Store) :
    (releaseStore species prev st).2 = 0 := by
  induction st generalizing prev with
  | nil => rfl
  | cons w ws ih =>
      simp [releaseStore, releaseWm_zero species h, ih]

theorem captureWm_zero (species : List TrapParams)
    (h : ∀ sp ∈ species, sp.density = 0) (width : ℚ) (fills : List ℚ) :
    (captureWm width species fills).2 = 0 := by
  induction fills generalizing species with
  | nil => cases species <;> rfl
  | cons f fs ih =>
      cases species with
      | nil => rfl
      | cons sp sps =>
          have h0 := h sp (List.mem_cons_self _ _)
          have ihs := ih sps (fun q hq => h q (List.mem_cons_of_mem _ hq))
          simp [captureWm, h0, ihs]

theorem captureStore_zero (species : List TrapParams)
    (h : ∀ sp ∈ species, sp.density = 0) (V prev : ℚ) (st : Store) :
    (captureStore species V prev st).2 = 0 := by
  induction st generalizing prev with
  | nil =>
      by_cases hv : prev < V <;>
        simp [captureStore, hv, captureWm_zero species h]
  | cons w ws ih =>
      by_cases h1 : w.volume ≤ V
      · simp [captureStore, h1, captureWm_zero species h, ih]
      · by_cases h2 : prev < V <;>
          simp [captureStore, h1, h2, captureWm_zero species h]

theorem clockStep_zero (species : List TrapParams)
    (h : ∀ sp ∈ species, sp.density = 0) (vol : ℚ → ℚ) (mult : ℚ)
    (monitored : Bool) (st : Store) (col : List ℚ) (r : ℕ) :
    (clockStep species vol mult monitored st col r).2 = col := by
  unfold clockStep
  by_cases hc : mult = 0 ∧ monitored = false
  · simp [hc]
  · simp only [if_neg hc, releaseStore_zero species h,
      captureStore_zero species h, sub_self, zero_mul, add_zero,
      set_getD_self]

theorem foldl_snd_fixed {β : Type} (f : Store × List ℚ → β → Store × List ℚ)
    (hf : ∀ s b, (f s b).2 = s.2) (l : List β) (s : Store × List ℚ) :
    (l.foldl f s).2 = s.2 := by
  induction l generalizing s with
  | nil => rfl
  | cons b bs ih => rw [List.foldl_cons, ih, hf]

theorem clockPass_zero (species : List TrapParams)
    (h : ∀ sp ∈ species, sp.density = 0) (vol : ℚ → ℚ)
    (M : List (List ℚ)) (emptyFirst : Bool) (e : ℕ) (st : Store)
    (col : List ℚ) :
    (clockPass species vol M emptyFirst e st col).2 = col := by
  unfold clockPass
  exact foldl_snd_fixed _
    (fun s b => clockStep_zero species h vol _ _ s.1 s.2 b) _ _

theorem clockLine_zero (p : DirParams)
    (h : ∀ sp ∈ p.species, sp.density = 0) (st : Store) (line : List ℚ) :
    (clockLine p st line).2 = line := by
  unfold clockLine
  exact foldl_snd_fixed _
    (fun s b => clockPass_zero p.species h p.vol _ _ _ s.1 s.2) _ _

theorem clockLines_zero (p : DirParams)
    (h : ∀ sp ∈ p.species, sp.density = 0) (lines : List (List ℚ)) :
    clockLines p lines = lines := by
  unfold clockLines
  suffices hgen : ∀ (ls : List (List ℚ)) (st : Store) (acc : List (List ℚ)),
      ((ls.foldl
        (fun acc line =>
          let st0 := if p.empty_traps_between_columns then emptyStore p.species
            else acc.1
          let out := clockLine p st0 line
          (out.1, acc.2 ++ [out.2]))
        (st, acc)).2) = acc ++ ls by
    have hfin := hgen lines (emptyStore p.species) []
    rw [List.nil_append] at hfin
    exact hfin
  intro ls
  induction ls with
  | nil => intro st acc; simp
  | cons l rest ih =>
      intro st acc
      simp only [List.foldl_cons]
      rw [ih]
      simp [clockLine_zero p h]

theorem getD_map_range {α : Type} (n : ℕ) (f : ℕ → α) (c : ℕ) (d : α)
    (h : c < n) : ((List.range n).map f).getD c d = f c := by
  rw [List.getD_eq_getElem?_getD, List.getElem?_map, List.getElem?_range h]
  rfl

theorem rowsFromColumns_columnsOf (img : Image)
    (hrect : ∀ row ∈ img, row.length = (img.headD []).length) :
    rowsFromColumns img.length (img.headD []).length (columnsOf img)
      = img := by
  apply List.ext_getElem
  · simp [rowsFromColumns]
  · intro r h1 h2
    simp only [rowsFromColumns, List.getElem_map, List.getElem_range]
    have hrowlen : img[r].length = (img.headD []).length :=
      hrect img[r] (List.getElem_mem h2)
    apply List.ext_getElem
    · simp [hrowlen]
    · intro c hc1 hc2
      simp only [List.getElem_map, List.getElem_range]
      have hcn : c < (img.headD []).length := by
        simpa using hc1
      rw [columnsOf, getD_map_range _ _ c _ hcn]
      have hmap : (img.map fun row => row.getD c 0).getD r 0
          = img[r].getD c 0 := by
        rw [List.getD_eq_getElem?_getD, List.getElem?_map,
          List.getElem?_eq_getElem h2]
        rfl
      rw [hmap, List.getD_eq_getElem?_getD, List.getElem?_eq_getElem hc2]
      rfl

theorem cy_add_cti_zero (par ser : DirParams)
    (hp : ∀ sp ∈ par.species, sp.density = 0)
    (hs : ∀ sp ∈ ser.species, sp.density = 0) (img : Image)
    (hrect : ∀ row ∈ img, row.length = (img.headD []).length) :
    cy_add_cti par ser true img = img := by
  unfold cy_add_cti serialPass parallelPass
  simp only [clockLines_zero par hp, clockLines_zero ser hs,
    rowsFromColumns_columnsOf img hrect, if_true]

/-! ## The `add_cti` wrapper (cti.py:59-303) and its dummy parameters -/

/-- The record `_extract_trap_parameters` returns on success (its value as
established for C9). -/
def extractedOf (traps : List PyTrap) : ExtractedTraps :=
  { trap_densities := (reorderedTraps traps).map PyTrap.density
    trap_release_timescales :=
      (reorderedTraps traps).map PyTrap.release_timescale
    trap_third_params := (reorderedTraps traps).map PyTrap.thirdParam
    trap_fourth_params := (reorderedTraps traps).map PyTrap.fourthParam
    n_traps_ic := (traps.filter PyTrap.isIC).length
    n_traps_sc := (traps.filter PyTrap.isSC).length
    n_traps_ic_co := (traps.filter PyTrap.isICCo).length
    n_traps_sc_co := (traps.filter PyTrap.isSCCo).length }

theorem extract_trap_parameters_ok (traps : List PyTrap)
    (hall : ∀ t ∈ traps, t.isOtherClass = false) :
    extract_trap_parameters traps = .ok (extractedOf traps) := by
  have hfour := four_filters_length traps
  have hnil : traps.filter PyTrap.isOtherClass = [] := by
    rw [List.filter_eq_nil_iff]
    intro t ht
    simp [hall t ht]
  have hsum : (traps.filter PyTrap.isSC).length
      + (traps.filter PyTrap.isIC).length
      + (traps.filter PyTrap.isICCo).length
      + (traps.filter PyTrap.isSCCo).length = traps.length := by
    rw [hnil] at hfour
    simpa using hfour
  unfold extract_trap_parameters extractedOf
  rw [if_neg (not_ne_iff.mpr hsum)]

/-- Modelled from the spec: the core rebuilds its species list from the
wrapper's flat parameter arrays — the four counts delimit the species
groups, and `mkDyn i τ` supplies species `i`'s evaluated numeric kernels
(per-dwell release factor and capture fill rule, §4.1/§4.1.1) from its
release timescale. -/
def coreSpecies (ex : ExtractedTraps) (mkDyn : ℕ → ℚ → ℚ × (ℚ → ℚ)) :
    List TrapParams :=
  (List.range (ex.n_traps_ic + ex.n_traps_sc + ex.n_traps_ic_co
      + ex.n_traps_sc_co)).map fun i =>
    { density := ex.trap_densities.getD i 0
      decay := (mkDyn i (ex.trap_release_timescales.getD i 0)).1
      captureFill := (mkDyn i (ex.trap_release_timescales.getD i 0)).2 }

/-- The default `ROE()` built by `_set_dummy_parameters` (cti.py:735, with
the defaults of roe.py:57-85). -/
def dummyROE : ROE := ROE_init [1] 0 (-1) true false true false 0 0 1 1

/-- The dummy trap arrays of `_set_dummy_parameters` (cti.py:737-744):
parameter arrays `[0.0]` but all four species counts zero, so the core sees
no trap species at all. -/
def dummyExtracted : ExtractedTraps := ⟨[0], [0], [0], [0], 0, 0, 0, 0⟩

/-- Modelled from the spec: the volume map of the dummy
`CCD([CCDPhase(0.0, 0.0, 0.0, 0.0)], [0.0])` (cti.py:736); its value is
irrelevant because the dummy species list is empty. -/
def dummyVol : ℚ → ℚ := fun _ => 1

/-- The per-direction core parameters assembled from an ROE, a species list,
a volume map and the express arguments (the argument plumbing of
cti.py:218-303). -/
def dirParamsOf (roe : ROE) (species : List TrapParams) (vol : ℚ → ℚ)
    (express window_offset : ℕ) : DirParams :=
  { species := species
    vol := vol
    express := express
    window_offset := window_offset
    use_integer_express_matrix := roe.use_integer_express_matrix
    empty_traps_between_columns := roe.empty_traps_between_columns
    empty_traps_for_first_transfers := roe.empty_traps_for_first_transfers }

/-- One direction's parameter setup in `add_cti` (cti.py:139-163 for
parallel, 167-191 for serial): a present trap list goes through
`_extract_trap_parameters` (whose exception propagates), an absent one
silently gets the dummy ROE/CCD/trap parameters. -/
def directionParams (traps : Option (List PyTrap)) (roe : ROE)
    (vol : ℚ → ℚ) (express window_offset : ℕ)
    (mkDyn : ℕ → ℚ → ℚ × (ℚ → ℚ)) : Except String DirParams :=
  match traps with
  | some t =>
      match extract_trap_parameters t with
      | .error e => .error e
      | .ok ex =>
          .ok (dirParamsOf roe (coreSpecies ex mkDyn) vol express
            window_offset)
  | none =>
      .ok (dirParamsOf dummyROE (coreSpecies dummyExtracted mkDyn) dummyVol
        express window_offset)

/-- `add_cti` (cti.py:59-303) under the default flags (`header=None`,
`pixel_bounce_list=None`, `vv_test=False`): the two directions' parameters
are set up (dummies for an absent block — nothing checks that at least one
block is present), the input is copied (cti.py:194; value-level identity
here) and the core is invoked with both directions (cti.py:218-303). -/
def add_cti (image : Image)
    (parallel_traps : Option (List PyTrap)) (parallel_roe : ROE)
    (parallel_vol : ℚ → ℚ) (parallel_express parallel_window_offset : ℕ)
    (serial_traps : Option (List PyTrap)) (serial_roe : ROE)
    (serial_vol : ℚ → ℚ) (serial_express serial_window_offset : ℕ)
    (allow_negative_pixels : Bool) (mkDyn : ℕ → ℚ → ℚ × (ℚ → ℚ)) :
    Except String Image :=
  match directionParams parallel_traps parallel_roe parallel_vol
      parallel_express parallel_window_offset mkDyn,
    directionParams serial_traps serial_roe serial_vol serial_express
      serial_window_offset mkDyn with
  | .error e, _ => .error e
  | .ok _, .error e => .error e
  | .ok par, .ok ser =>
      .ok (cy_add_cti par ser allow_negative_pixels image)

instance {ε α : Type} [DecidableEq ε] [DecidableEq α] :
    DecidableEq (Except ε α) := fun a b =>
  match a, b with
  | .ok x, .ok y =>
      if h : x = y then .isTrue (by rw [h])
      else .isFalse (fun hh => h (Except.ok.inj hh))
  | .error x, .error y =>
      if h : x = y then .isTrue (by rw [h])
      else .isFalse (fun hh => h (Except.error.inj hh))
  | .ok _, .error _ => .isFalse (fun hh => Except.noConfusion hh)
  | .error _, .ok _ => .isFalse (fun hh => Except.noConfusion hh)

theorem directionParams_none (roe : ROE) (vol : ℚ → ℚ)
    (express window_offset : ℕ) (mkDyn : ℕ → ℚ → ℚ × (ℚ → ℚ)) :
    directionParams none roe vol express window_offset mkDyn
      = .ok (dirParamsOf dummyROE (coreSpecies dummyExtracted mkDyn)
          dummyVol express window_offset) := rfl

theorem directionParams_some_ok (traps : List PyTrap)
    (hall : ∀ t ∈ traps, t.isOtherClass = false) (roe : ROE) (vol : ℚ → ℚ)
    (express window_offset : ℕ) (mkDyn : ℕ → ℚ → ℚ × (ℚ → ℚ)) :
    directionParams (some traps) roe vol express window_offset mkDyn
      = .ok (dirParamsOf roe (coreSpecies (extractedOf traps) mkDyn) vol
          express window_offset) := by
  simp only [directionParams]
  rw [extract_trap_parameters_ok traps hall]

theorem coreSpecies_dummy (mkDyn : ℕ → ℚ → ℚ × (ℚ → ℚ)) :
    coreSpecies dummyExtracted mkDyn = [] := rfl

theorem coreSpecies_zero_density (traps : List PyTrap)
    (h0 : ∀ t ∈ traps, t.density = 0) (mkDyn : ℕ → ℚ → ℚ × (ℚ → ℚ)) :
    ∀ sp ∈ coreSpecies (extractedOf traps) mkDyn, sp.density = 0 := by
  intro sp hsp
  rcases List.mem_map.mp hsp with ⟨i, _, hspi⟩
  have hall : ∀ x ∈ (extractedOf traps).trap_densities, x = 0 := by
    intro x hx
    rcases List.mem_map.mp hx with ⟨t, ht, hxt⟩
    have htmem : t ∈ traps := by
      unfold reorderedTraps at ht
      rcases List.mem_append.mp ht with h' | h'
      · rcases List.mem_append.mp h' with h'' | h''
        · rcases List.mem_append.mp h'' with h3 | h3 <;>
            exact List.mem_of_mem_filter h3
        · exact List.mem_of_mem_filter h''
      · exact List.mem_of_mem_filter h'
    rw [← hxt]
    exact h0 t htmem
  have : (extractedOf traps).trap_densities.getD i 0 = 0 := by
    rcases Nat.lt_or_ge i (extractedOf traps).trap_densities.length with hi | hi
    · rw [List.getD_eq_getElem?_getD, List.getElem?_eq_getElem hi]
      exact hall _ (List.getElem_mem hi)
    · rw [List.getD_eq_getElem?_getD, List.getElem?_eq_none hi]
      rfl
  rw [← hspi]
  exact this

/-- C4: add_cti with trap lists in which every trap density is zero returns
the input image unchanged (the spec's zero-trap identity P2), for every
rectangular image, both clocking directions, every ROE, volume map, express
setting and numeric kernel — because every electron count the occupancy
store reports is a density-weighted sum. -/
theorem C4_zero_trap_identity (image : Image)
    (hrect : ∀ row ∈ image, row.length = (image.headD []).length)
    (pt st : List PyTrap)
    (hp0 : ∀ t ∈ pt, t.density = 0) (hpc : ∀ t ∈ pt, t.isOtherClass = false)
    (hs0 : ∀ t ∈ st, t.density = 0) (hsc : ∀ t ∈ st, t.isOtherClass = false)
    (roeP roeS : ROE) (volP volS : ℚ → ℚ) (pe po se so : ℕ)
    (mkDyn : ℕ → ℚ → ℚ × (ℚ → ℚ)) :
    add_cti image (some pt) roeP volP pe po (some st) roeS volS se so
        true mkDyn
      = .ok image := by
  simp only [add_cti]
  rw [directionParams_some_ok pt hpc, directionParams_some_ok st hsc]
  show Except.ok (cy_add_cti _ _ true image) = Except.ok image
  rw [cy_add_cti_zero _ _ (coreSpecies_zero_density pt hp0 mkDyn)
    (coreSpecies_zero_density st hs0 mkDyn) image hrect]

/-- Witness for C4: a 2×2 image, one zero-density instant-capture trap in
each direction. -/
theorem C4_witness :
    ((∀ row ∈ ([[1, 2], [3, 4]] : Image), row.length = 2)
      ∧ add_cti [[1, 2], [3, 4]] (some [PyTrap.ic 0 1 0 0]) dummyROE
          (fun q => q / 10) 0 0 (some [PyTrap.sc 0 1 0]) dummyROE
          (fun q => q / 10) 0 0 true (fun _ _ => (1/2, fun _ => 1))
        = .ok [[1, 2], [3, 4]])
    ∧ add_cti [[1, 2], [3, 4]] (some [PyTrap.ic 0 1 0 0]) dummyROE
        (fun q => q / 10) 0 0 (some [PyTrap.sc 0 1 0]) dummyROE
        (fun q => q / 10) 0 0 true (fun _ _ => (1/2, fun _ => 1))
      = .ok [[1, 2], [3, 4]] := by
  have h := C4_zero_trap_identity [[1, 2], [3, 4]] (by decide)
    [PyTrap.ic 0 1 0 0] [PyTrap.sc 0 1 0] (by decide) (by decide)
    (by decide) (by decide) dummyROE dummyROE (fun q => q / 10)
    (fun q => q / 10) 0 0 0 0 (fun _ _ => (1/2, fun _ => 1))
  exact ⟨⟨by decide, h⟩, h⟩

theorem cy_add_cti_dummy_serial (par : DirParams) (se so : ℕ)
    (mkDyn : ℕ → ℚ → ℚ × (ℚ → ℚ)) (img : Image) :
    cy_add_cti par
        (dirParamsOf dummyROE (coreSpecies dummyExtracted mkDyn) dummyVol
          se so) true img
      = parallelPass par img := by
  unfold cy_add_cti serialPass
  simp [clockLines_zero _
    (show ∀ sp ∈ (dirParamsOf dummyROE (coreSpecies dummyExtracted mkDyn)
        dummyVol se so).species, sp.density = 0 by
      simp [dirParamsOf, coreSpecies_dummy])]

theorem cy_add_cti_dummy_parallel (ser : DirParams) (pe po : ℕ)
    (mkDyn : ℕ → ℚ → ℚ × (ℚ → ℚ)) (img : Image)
    (hrect : ∀ row ∈ img, row.length = (img.headD []).length) :
    cy_add_cti
        (dirParamsOf dummyROE (coreSpecies dummyExtracted mkDyn) dummyVol
          pe po) ser true img
      = serialPass ser img := by
  unfold cy_add_cti parallelPass
  rw [clockLines_zero _
    (show ∀ sp ∈ (dirParamsOf dummyROE (coreSpecies dummyExtracted mkDyn)
        dummyVol pe po).species, sp.density = 0 by
      simp [dirParamsOf, coreSpecies_dummy]),
    rowsFromColumns_columnsOf img hrect]
  rfl

/-- C7 counterexample: the claim says `add_cti` with both parameter blocks
absent "fails before any work", but on a concrete image it returns the
image successfully: both directions are silently given the dummy zero-trap
parameters and clocked. -/
theorem C7_counterexample :
    add_cti [[1, 2], [3, 4]] none dummyROE dummyVol 0 0
        none dummyROE dummyVol 0 0 true (fun _ _ => (1, fun q => q))
      = .ok [[1, 2], [3, 4]] := by decide

/-- C7 (amended): when a parameter block is absent, `add_cti` substitutes
the dummy parameters (standard ROE, zero CCD, zero trap counts) for that
direction and proceeds — it does not fail when both are absent, and the
absent direction is clocked with the dummy (empty) trap list rather than
skipped, which contributes no change to the image: with both blocks absent
the input is returned unchanged, and with exactly one block absent the
result is exactly the present direction's clocking of the image — the
parallel clocking when the serial block is absent, and the serial clocking
when the parallel block is absent. -/
theorem C7_absent_block_clocked_with_dummies (image : Image)
    (hrect : ∀ row ∈ image, row.length = (image.headD []).length)
    (roeP roeS : ROE) (volP volS : ℚ → ℚ) (pe po se so : ℕ)
    (mkDyn : ℕ → ℚ → ℚ × (ℚ → ℚ)) :
    (add_cti image none roeP volP pe po none roeS volS se so true mkDyn
      = .ok image)
    ∧ (∀ traps, (∀ t ∈ traps, t.isOtherClass = false) →
        add_cti image (some traps) roeP volP pe po none roeS volS se so
            true mkDyn
          = .ok (parallelPass
              (dirParamsOf roeP (coreSpecies (extractedOf traps) mkDyn)
                volP pe po) image))
    ∧ (∀ traps, (∀ t ∈ traps, t.isOtherClass = false) →
        add_cti image none roeP volP pe po (some traps) roeS volS se so
            true mkDyn
          = .ok (serialPass
              (dirParamsOf roeS (coreSpecies (extractedOf traps) mkDyn)
                volS se so) image)) := by
  refine ⟨?_, ?_, ?_⟩
  · simp only [add_cti]
    rw [directionParams_none, directionParams_none]
    show Except.ok (cy_add_cti _ _ true image) = Except.ok image
    rw [cy_add_cti_zero _ _ (by simp [dirParamsOf, coreSpecies_dummy])
      (by simp [dirParamsOf, coreSpecies_dummy]) image hrect]
  · intro traps hall
    simp only [add_cti]
    rw [directionParams_some_ok traps hall, directionParams_none]
    show Except.ok (cy_add_cti _ _ true image) = _
    rw [cy_add_cti_dummy_serial]
  · intro traps hall
    simp only [add_cti]
    rw [directionParams_none, directionParams_some_ok traps hall]
    show Except.ok (cy_add_cti _ _ true image) = _
    rw [cy_add_cti_dummy_parallel _ _ _ _ image hrect]

/-- Witness for C7: the 2×2 image with an instant-capture trap of density 2
in only one direction's block; the absent direction leaves the present
direction's result untouched, in both the serial-absent and the
parallel-absent configuration. -/
theorem C7_witness :
    ((∀ row ∈ ([[1, 2], [3, 4]] : Image), row.length = 2)
      ∧ add_cti [[1, 2], [3, 4]] none dummyROE dummyVol 0 0 none dummyROE
          dummyVol 0 0 true (fun _ _ => (1/2, fun _ => 1))
        = .ok [[1, 2], [3, 4]]
      ∧ add_cti [[1, 2], [3, 4]] (some [PyTrap.ic 2 1 0 0]) dummyROE
          (fun q => min 1 (max 0 (q / 10))) 0 0 none dummyROE dummyVol 0 0
          true (fun _ _ => (1/2, fun _ => 1))
        = .ok (parallelPass
            (dirParamsOf dummyROE
              (coreSpecies (extractedOf [PyTrap.ic 2 1 0 0])
                (fun _ _ => (1/2, fun _ => 1)))
              (fun q => min 1 (max 0 (q / 10))) 0 0) [[1, 2], [3, 4]])
      ∧ add_cti [[1, 2], [3, 4]] none dummyROE dummyVol 0 0
          (some [PyTrap.ic 2 1 0 0]) dummyROE
          (fun q => min 1 (max 0 (q / 10))) 0 0
          true (fun _ _ => (1/2, fun _ => 1))
        = .ok (serialPass
            (dirParamsOf dummyROE
              (coreSpecies (extractedOf [PyTrap.ic 2 1 0 0])
                (fun _ _ => (1/2, fun _ => 1)))
              (fun q => min 1 (max 0 (q / 10))) 0 0) [[1, 2], [3, 4]])) := by
  have h := C7_absent_block_clocked_with_dummies [[1, 2], [3, 4]]
    (by decide) dummyROE dummyROE (fun q => min 1 (max 0 (q / 10))) dummyVol
    0 0 0 0 (fun _ _ => (1/2, fun _ => 1))
  have h1 := C7_absent_block_clocked_with_dummies [[1, 2], [3, 4]]
    (by decide) dummyROE dummyROE dummyVol (fun q => min 1 (max 0 (q / 10)))
    0 0 0 0 (fun _ _ => (1/2, fun _ => 1))
  have h0 := C7_absent_block_clocked_with_dummies [[1, 2], [3, 4]]
    (by decide) dummyROE dummyROE dummyVol dummyVol 0 0 0 0
    (fun _ _ => (1/2, fun _ => 1))
  exact ⟨by decide, h0.1, h.2.1 [PyTrap.ic 2 1 0 0] (by decide),
    h1.2.2 [PyTrap.ic 2 1 0 0] (by decide)⟩


/-! ## Scenario S1 (test_arcticpy.py:17-224): single pixel, express sweep

The spec-modelled core instantiated at the repository's own reference
scenario: a 20×1 image with 800 electrons at row 2, one instant-capture
trap of density 10 and release timescale `-1/np.log(0.5)` (whose per-dwell
release factor is exactly `1/2`), the CCD `well_fill_power=1,
full_well_depth=1000, well_notch_depth=0`, and the ROE
`empty_traps_between_columns=True, empty_traps_for_first_transfers=False,
use_integer_express_matrix=True`.  `add_cti` is called with the parallel
block only, exactly as the test does.  The express-20 run (400 clock steps)
is evaluated in two halves of ten express passes each, through literal
intermediate states. -/

set_option maxRecDepth 100000
set_option maxHeartbeats 16000000

/-- Absolute value on the rationals. -/
def qabs (x : ℚ) : ℚ := if x < 0 then -x else x

/-- The numeric kernels of an instant-capture species with release
timescale `-1/ln 0.5` at unit dwell time: the per-dwell release factor
`exp(−1/τ)` (§4.1) is exactly `1/2`, and instant capture raises every
fill it reaches to 1. -/
def mkDynIC : ℕ → ℚ → ℚ × (ℚ → ℚ) := fun _ _ => (1/2, fun _ => 1)

/-- The IEEE-double value of `-1 / np.log(0.5)` stored on the trap object;
only `mkDynIC` consumes it (evaluating the release factor to `1/2`). -/
def s1tau : ℚ := 6497320848556798 / 4503599627370496

/-- The trap list `[TrapInstantCapture(density=10, release_timescale=-1/np.log(0.5))]`. -/
def icTraps10 : List PyTrap := [PyTrap.ic 10 s1tau 0 0]

/-- The volume map of `CCDPhase(well_fill_power=1, full_well_depth=1000,
well_notch_depth=0)` (ccd.py:17-27): `clip(n_e/1000, 0, 1)`. -/
def vol1000 : ℚ → ℚ := fun n => min 1 (max 0 (n / 1000))

/-- The S1 `ROE(empty_traps_between_columns=True,
empty_traps_for_first_transfers=False, use_integer_express_matrix=True)`
(roe.py:57-85 defaults otherwise). -/
def s1roe : ROE := ROE_init [1] 0 (-1) true false true true 0 0 1 1

/-- The 20×1 image with a single pixel of 800 electrons at row 2. -/
def s1image : Image :=
  (List.range 20).map fun r => if r = 2 then [800] else [0]

/-- S1's `add_cti` call at express `ex`: the parallel block only, the
serial block absent (test_arcticpy.py:130-140). -/
def s1addE (ex : ℕ) : Except String Image :=
  add_cti s1image (some icTraps10) s1roe vol1000 ex 0 none dummyROE dummyVol
    0 0 true mkDynIC

/-- Pixel `(r, 0)` of a returned single-column image (−1 on failure). -/
def exRow (e : Except String Image) (r : ℕ) : ℚ :=
  match e with
  | .ok img => (img.getD r []).getD 0 0
  | .error _ => -1

/-- Statement that `x` is within five percent of `target`. -/
abbrev near5pct (x target : ℚ) : Prop := qabs (x - target) ≤ target / 20

/-- The trail decays geometric-ish from row 3 on: each successive ratio
lies in `[0.4, 0.65]` (≈ 0.5). -/
def tailDecayOK (e : Except String Image) : Bool :=
  (List.range' 3 16).all fun r =>
    decide (2/5 * exRow e r ≤ exRow e (r + 1)
      ∧ exRow e (r + 1) ≤ 13/20 * exRow e r)

/-- A single-column image from a list of pixel values. -/
def colImg (xs : List ℚ) : Image := xs.map fun x => [x]

def s1out1 : List ℚ :=
  [mkRat 0 1, mkRat 0 1, mkRat 776 1, mkRat 16 1, mkRat 10 1, mkRat 6 1, mkRat 7 2, mkRat 2 1, mkRat 9 8, mkRat 5 8, mkRat 11 32, mkRat 3 16, mkRat 13 128, mkRat 7 128, mkRat 15 512, mkRat 1 64, mkRat 17 2048, mkRat 9 2048, mkRat 19 8192, mkRat 5 4096]

def s1out2 : List ℚ :=
  [mkRat 0 1, mkRat 0 1, mkRat 776 1, mkRat 16 1, mkRat 10 1, mkRat 6 1, mkRat 7 2, mkRat 2 1, mkRat 9 8, mkRat 5 8, mkRat 1170735107 3355443200, mkRat 651689987 3355443200, mkRat 1446510601 13421772800, mkRat 400031747 6710886400, mkRat 352845827 10737418240, mkRat 969408521 53687091200, mkRat 2123890709 214748364800, mkRat 289931267 53687091200, mkRat 2525495323 858993459200, mkRat 274202627 171798691840]

def s1out5 : List ℚ :=
  [mkRat 0 1, mkRat 0 1, mkRat 776 1, mkRat 16 1, mkRat 20845691 2097152, mkRat 313524227 52428800, mkRat 737148937 209715200, mkRat 212860931 104857600, mkRat 25507295691800651 21990232555520000, mkRat 14458852944379979 21990232555520000, mkRat 32554615484186849 87960930222080000, mkRat 9105330753241163 43980465111040000, mkRat 1064627830805595636893523 9223372036854775808000000, mkRat 592077151074498691991379 9223372036854775808000000, mkRat 1313609733582432352605689 36893488147419103232000000, mkRat 363315905127519073601363 18446744073709551616000000, mkRat 42106637475746639365754212103963 3868562622766813359059763200000000, mkRat 23255111307969624670597262653211 3868562622766813359059763200000000, mkRat 51322364995588091610638550181201 15474250491067253436239052800000000, mkRat 14139622797078345816038069548827 7737125245533626718119526400000000]

def s1out10 : List ℚ :=
  [mkRat 0 1, mkRat 0 1, mkRat 203465691 262144, mkRat 103284737 6553600, mkRat 27103511745396737 2748779069440000, mkRat 16381624003330049 2748779069440000, mkRat 1013627346400328304164889 288230376151711744000000, mkRat 588501513973781529755673 288230376151711744000000, mkRat 35384518158919152068745746317937 30223145490365729367654400000000, mkRat 20113068517478648893109347680881 30223145490365729367654400000000, mkRat 1190262684323327367742861191747468410121 3169126500570573503741758013440000000000, mkRat 668381807470102885633259176010889706761 3169126500570573503741758013440000000000, mkRat 39186217226735992078910781692749431646227789281 332306998946228968225951765070086144000000000000, mkRat 21845468315757132170258360588667188255387284961 332306998946228968225951765070086144000000000000, mkRat 1273596542534315580854500601152151401606955452319859449 34844914372704098658649559801013064853094400000000000000, mkRat 141381138441518503716397482200713786676014470046403941 6968982874540819731729911960202612970618880000000000000, mkRat 41074792669751499386390843563862593368438398056787591507692113 3653754093327257295509212081790707549139831357440000000000000000, mkRat 909591609120466251795719291527373316197286618560258887058169 146150163733090291820368483271628301965593254297600000000000000, mkRat 1318757582169820459782190397862304196191709675328853204781516556485097 383123885216472214589586756787577295904684780545900544000000000000000000, mkRat 729052094549852826505798241237783832883780155689749761096105405333993 383123885216472214589586756787577295904684780545900544000000000000000000]

def s1mid20p0 : Store :=
  [Watermark.mk (mkRat 32917243433254515919317711120523547867805110338321338147282221 46768052394588893382517914646921056628989841375232000000000000000000) [mkRat 1 1],
    Watermark.mk (mkRat 161669025266065227183800073865188982726637498250597024880300513 116920130986472233456294786617302641572474603438080000000000000000000) [mkRat 1 2],
    Watermark.mk (mkRat 158783897105314812407691911607603873960051255504359845732585953 58460065493236116728147393308651320786237301719040000000000000000000) [mkRat 1 4],
    Watermark.mk (mkRat 31186119979059373590652310215215094796339675180587620210973997 5846006549323611672814739330865132078623730171904000000000000000000) [mkRat 1 8],
    Watermark.mk (mkRat 153108901990055414544590847837696900571523411600599714396148193 14615016373309029182036848327162830196559325429760000000000000000000) [mkRat 1 16],
    Watermark.mk (mkRat 150318572882632421225387135538318199198609413511281200081310177 7307508186654514591018424163581415098279662714880000000000000000000) [mkRat 1 32],
    Watermark.mk (mkRat 147559383201305303892975721338941312177877402663014520845275617 3653754093327257295509212081790707549139831357440000000000000000000) [mkRat 1 64],
    Watermark.mk (mkRat 28966220941166490411196721671532284389368707499456023711063341 365375409332725729550921208179070754913983135744000000000000000000) [mkRat 1 128],
    Watermark.mk (mkRat 28426702056741354758305893548763120012560326065478227768122669 182687704666362864775460604089535377456991567872000000000000000000) [mkRat 1 256],
    Watermark.mk (mkRat 1115730991571337991066480554485058794449460765905407686596661 3653754093327257295509212081790707549139831357440000000000000000) [mkRat 1 512],
    Watermark.mk (mkRat 136829470825718480127548565952308282061226343277388233532019169 228359630832953580969325755111919221821239459840000000000000000000) [mkRat 1 1024],
    Watermark.mk (mkRat 134222577169908232799345213371070833930485556357435710919578081 114179815416476790484662877555959610910619729920000000000000000000) [mkRat 1 2048],
    Watermark.mk (mkRat 4456511033361648698187511921878510570265080596948138249 2177807148294006166165597487563316553318400000000000000000) [mkRat 1 4096],
    Watermark.mk (mkRat 29232205186322229425420723504334970373863484541 8307674973655724205648794126752153600000000000000) [mkRat 1 8192],
    Watermark.mk (mkRat 4713529490614928639665537969097511189529 792281625142643375935439503360000000000000) [mkRat 1 16384],
    Watermark.mk (mkRat 148409263484579080411010378243073 15111572745182864683827200000000000) [mkRat 1 32768]]

def s1mid20p1 : Store :=
  [Watermark.mk (mkRat 4508728065958579708352553 288230376151711744000000000) [mkRat 1 65536],
    Watermark.mk (mkRat 42674203047011299 54975581388800000) [mkRat 1 131072],
    Watermark.mk (mkRat 411083743 524288000) [mkRat 1 182687704666362864775460604089535377456991567872],
    Watermark.mk (mkRat 99 125) [mkRat 1 191561942608236107294793378393788647952342390272950272],
    Watermark.mk (mkRat 4 5) [mkRat 1 200867255532373784442745261542645325315275374222849104412672]]

def s1mid20 : Store × List ℚ :=
  (s1mid20p0 ++ s1mid20p1,
   [mkRat 0 1, mkRat 1 65536, mkRat 42674203047011299 54975581388800, mkRat 4508728065958579708352553 288230376151711744000000, mkRat 148409263484579080411010378243073 15111572745182864683827200000000, mkRat 4713529490614928639665537969097511189529 792281625142643375935439503360000000000, mkRat 29232205186322229425420723504334970373863484541 8307674973655724205648794126752153600000000000, mkRat 4456511033361648698187511921878510570265080596948138249 2177807148294006166165597487563316553318400000000000000, mkRat 134222577169908232799345213371070833930485556357435710919578081 114179815416476790484662877555959610910619729920000000000000000, mkRat 4005701654752168078764272431377352095886390629913049274141151224676089 5986310706507378352962293074805895248510699696029696000000000000000000, mkRat 163696615046145849041769186355284848931078798710585461361325784994273 478904856520590268236983445984471619880855975682375680000000000000000, mkRat 836052660925158467367023868316441848031274476637415096868172569303397 4789048565205902682369834459844716198808559756823756800000000000000000, mkRat 853851053641794574896750156513477710423769389787022655434986776090981 9578097130411805364739668919689432397617119513647513600000000000000000, mkRat 4359401153637740655199300482385825186716315709307581552687165759831801 95780971304118053647396689196894323976171195136475136000000000000000000, mkRat 890142181316994564133386508727873528433358059056865243589535314663781 38312388521647221458958675678757729590468478054590054400000000000000000, mkRat 4543194531906706386868385612990974949295916556287144972751349299035897 383123885216472214589586756787577295904684780545900544000000000000000000, mkRat 4636862093887672678618650221156048075877299404178642084726945796472569 766247770432944429179173513575154591809369561091801088000000000000000000, mkRat 4731723716487531960785708266080801038353599632093384620269529599327993 1532495540865888858358347027150309183618739122183602176000000000000000000, mkRat 4827789583587809578618885019960845773195835880092577183473990424215289 3064991081731777716716694054300618367237478244367204352000000000000000000, mkRat 4925069939239534921070673427021867958892868171446663202414434548465401 6129982163463555433433388108601236734474956488734408704000000000000000000])

def s1fin20p0 : Store :=
  [Watermark.mk (mkRat 65255662390944512705745747968122146729497156678220807210365447050150773741639936240308181486365904562344129253700744016078531995574469137 35835915874844867368919076489095108449946327955754392558399825615420669938882575126094039892345713852416000000000000000000000000000000000000000) [mkRat 1 1],
    Watermark.mk (mkRat 62799499298307711091728860753657821642786477690710120338896312533776701312439298813945974452223570008575893949919210980458971096288723473 17917957937422433684459538244547554224973163977877196279199912807710334969441287563047019946172856926208000000000000000000000000000000000000000) [mkRat 1 2],
    Watermark.mk (mkRat 2162622979307077574338830166307746288119487425649322086004098161141544992590887924632927437159816793462355912158697046237462622393 341757925747345613183203472987128338336432723577064443191526657251555156124902488003673933909852160000000000000000000000000000000000000) [mkRat 1 4],
    Watermark.mk (mkRat 14882657724428690461370470966200799316364898424417398731520735730222666564729539181634941802889380889815343167796882473453 1303703024854071095211805240582002023072939771946199200407129887586804031848535491957374320640000000000000000000000000000000000) [mkRat 1 8],
    Watermark.mk (mkRat 2557645323109915548212197249026942977305907006348773343355667409167016981763228535709174230875637892871639858734793 124330809102446660538845562036705210025114037699336929360115994223289874253133343883264000000000000000000000000000000000) [mkRat 1 16],
    Watermark.mk (mkRat 87779888353408587448464692755024845326474808846410962881228125172210748751784560192270243437518760617718321 2371421987580235682274733772977928352834969285952318751528091320482060895025889280000000000000000000000000000000) [mkRat 1 32],
    Watermark.mk (mkRat 3006910055428399523059444553930656016228287523760069828825491693390411032600710849805208140542420441 45231284858326638837332416019018714005183587760015845327913118753091066265600000000000000000000000000000) [mkRat 1 64],
    Watermark.mk (mkRat 102747616258991794727440275210463653116330111682723817014004376553424851341730498988735957953 862718293348820473429344482784628181556388621521298319395315527974912000000000000000000000000000) [mkRat 1 128],
    Watermark.mk (mkRat 699950353208731012965899783751455542360082632267151436486026409285094875689822371733 3291009114642412084309938365114701009965471731267159726697218048000000000000000000000000) [mkRat 1 256],
    Watermark.mk (mkRat 118717559463874683502428716334009816066475292214238514507422773664541929252433 313855086769334038191789471160383320805117772223201725644800000000000000000000000) [mkRat 1 512],
    Watermark.mk (mkRat 4005701654752168078764272431377352095886390629913049274141151224676089 5986310706507378352962293074805895248510699696029696000000000000000000000) [mkRat 1 1024],
    Watermark.mk (mkRat 134222577169908232799345213371070833930485556357435710919578081 114179815416476790484662877555959610910619729920000000000000000000) [mkRat 1 2048],
    Watermark.mk (mkRat 4456511033361648698187511921878510570265080596948138249 2177807148294006166165597487563316553318400000000000000000) [mkRat 1 4096],
    Watermark.mk (mkRat 29232205186322229425420723504334970373863484541 8307674973655724205648794126752153600000000000000) [mkRat 1 8192],
    Watermark.mk (mkRat 4713529490614928639665537969097511189529 792281625142643375935439503360000000000000) [mkRat 1 16384],
    Watermark.mk (mkRat 148409263484579080411010378243073 15111572745182864683827200000000000) [mkRat 1 32768]]

def s1fin20p1 : Store :=
  [Watermark.mk (mkRat 4508728065958579708352553 288230376151711744000000000) [mkRat 1 65536],
    Watermark.mk (mkRat 42674203047011299 54975581388800000) [mkRat 1 131072],
    Watermark.mk (mkRat 411083743 524288000) [mkRat 1 293567822846729153486185074598667128421960318613539983838411371441526128139326055432962374798096087878991872],
    Watermark.mk (mkRat 99 125) [mkRat 1 307828173409331868845930000782371982852185463050511302093346042220669701339821957901673955116288403443801781174272],
    Watermark.mk (mkRat 4 5) [mkRat 1 322781234760863573706989896500376484291213224103652939103832419567580952752105149328705669160017228929487896496593436672]]

def s1fin20 : Store × List ℚ :=
  (s1fin20p0 ++ s1fin20p1,
   [mkRat 0 1, mkRat 1 65536, mkRat 42674203047011299 54975581388800, mkRat 4508728065958579708352553 288230376151711744000000, mkRat 148409263484579080411010378243073 15111572745182864683827200000000, mkRat 4713529490614928639665537969097511189529 792281625142643375935439503360000000000, mkRat 29232205186322229425420723504334970373863484541 8307674973655724205648794126752153600000000000, mkRat 4456511033361648698187511921878510570265080596948138249 2177807148294006166165597487563316553318400000000000000, mkRat 134222577169908232799345213371070833930485556357435710919578081 114179815416476790484662877555959610910619729920000000000000000, mkRat 4005701654752168078764272431377352095886390629913049274141151224676089 5986310706507378352962293074805895248510699696029696000000000000000000, mkRat 118717559463874683502428716334009816066475292214238514507422773664541929252433 313855086769334038191789471160383320805117772223201725644800000000000000000000, mkRat 699950353208731012965899783751455542360082632267151436486026409285094875689822371733 3291009114642412084309938365114701009965471731267159726697218048000000000000000000000, mkRat 102747616258991794727440275210463653116330111682723817014004376553424851341730498988735957953 862718293348820473429344482784628181556388621521298319395315527974912000000000000000000000000, mkRat 3006910055428399523059444553930656016228287523760069828825491693390411032600710849805208140542420441 45231284858326638837332416019018714005183587760015845327913118753091066265600000000000000000000000000, mkRat 87779888353408587448464692755024845326474808846410962881228125172210748751784560192270243437518760617718321 2371421987580235682274733772977928352834969285952318751528091320482060895025889280000000000000000000000000000, mkRat 2557645323109915548212197249026942977305907006348773343355667409167016981763228535709174230875637892871639858734793 124330809102446660538845562036705210025114037699336929360115994223289874253133343883264000000000000000000000000000000, mkRat 14882657724428690461370470966200799316364898424417398731520735730222666564729539181634941802889380889815343167796882473453 1303703024854071095211805240582002023072939771946199200407129887586804031848535491957374320640000000000000000000000000000000, mkRat 2162622979307077574338830166307746288119487425649322086004098161141544992590887924632927437159816793462355912158697046237462622393 341757925747345613183203472987128338336432723577064443191526657251555156124902488003673933909852160000000000000000000000000000000000, mkRat 62799499298307711091728860753657821642786477690710120338896312533776701312439298813945974452223570008575893949919210980458971096288723473 17917957937422433684459538244547554224973163977877196279199912807710334969441287563047019946172856926208000000000000000000000000000000000000, mkRat 1822542217631315331135622873929014506447239241405603012791296779524840585374493843175630792670300292294454973151534137421740129673929895708079017 939417033109533291155792238715734810950273019563327948282916388612883610045843377385479599353907481212773990400000000000000000000000000000000000000])


theorem s1run_1 : s1addE 1 = .ok (colImg s1out1) := by decide

theorem s1run_2 : s1addE 2 = .ok (colImg s1out2) := by decide

theorem s1run_5 : s1addE 5 = .ok (colImg s1out5) := by decide

theorem s1run_10 : s1addE 10 = .ok (colImg s1out10) := by decide

/-- The parallel direction parameters of S1 at express 20. -/
def s1p20 : DirParams :=
  dirParamsOf s1roe (coreSpecies (extractedOf icTraps10) mkDynIC) vol1000
    20 0

/-- The S1 express matrix at express 20. -/
def s1M20 : List (List ℚ) := expressMatrix 20 20 0 true

/-- The single column of `s1image`. -/
def s1col : List ℚ := (List.range 20).map fun r => if r = 2 then 800 else 0

/-- The express passes of S1's express-20 `clockLine`, over an explicit
list of pass indices (so the run can be split at a pass boundary). -/
def s1passes (es : List ℕ) (sc : Store × List ℚ) : Store × List ℚ :=
  es.foldl
    (fun sc e =>
      clockPass s1p20.species s1p20.vol s1M20
        s1p20.empty_traps_for_first_transfers e sc.1 sc.2)
    sc

theorem s1passes_split (sc : Store × List ℚ) :
    s1passes (List.range 20) sc
      = s1passes (List.range' 10 10) (s1passes (List.range' 0 10) sc) := by
  rw [show List.range 20 = List.range' 0 10 ++ List.range' 10 10 from by
    decide]
  unfold s1passes
  rw [List.foldl_append]

theorem s1chunkA :
    s1passes (List.range' 0 10) (emptyStore s1p20.species, s1col)
      = s1mid20 := by decide

theorem s1chunkB : s1passes (List.range' 10 10) s1mid20 = s1fin20 := by
  decide

theorem s1par20 : parallelPass s1p20 s1image = colImg s1fin20.2 := by
  unfold parallelPass
  rw [show columnsOf s1image = [s1col] from by decide]
  rw [show clockLines s1p20 [s1col]
      = [(clockLine s1p20 (emptyStore s1p20.species) s1col).2] from rfl]
  rw [show clockLine s1p20 (emptyStore s1p20.species) s1col
      = s1passes (List.range 20) (emptyStore s1p20.species, s1col) from rfl]
  rw [s1passes_split, s1chunkA, s1chunkB]
  decide

theorem s1run_20 : s1addE 20 = .ok (colImg s1fin20.2) := by
  simp only [s1addE, add_cti]
  rw [directionParams_some_ok icTraps10 (by decide) s1roe vol1000 20 0
    mkDynIC, directionParams_none]
  show Except.ok (cy_add_cti _ _ true s1image) = _
  rw [cy_add_cti_dummy_serial]
  show Except.ok (parallelPass s1p20 s1image) = _
  rw [s1par20]

/-- C8: in the S1 express sweep (20×1 image, 800 electrons at row 2, one
instant-capture trap of density 10 and release timescale −1/ln 0.5, CCD
full well 1000 / notch 0 / power 1, ROE with empty_traps_between_columns,
no empty_traps_for_first_transfers, integer express matrix), `add_cti` at
express 1, 2, 5, 10, 20 leaves row 2 within 5% of 776.0, 776.0, 776.0,
776.16, 776.24 respectively, leaves row 3 within 5% of 15.3718, and the
tail from row 3 on decays with per-row ratio ≈ 0.5 (each ratio in
`[0.4, 0.65]`). -/
theorem C8_express_sweep :
    (near5pct (exRow (s1addE 1) 2) 776
      ∧ near5pct (exRow (s1addE 1) 3) (153718 / 10000)
      ∧ tailDecayOK (s1addE 1) = true)
    ∧ (near5pct (exRow (s1addE 2) 2) 776
      ∧ near5pct (exRow (s1addE 2) 3) (153718 / 10000)
      ∧ tailDecayOK (s1addE 2) = true)
    ∧ (near5pct (exRow (s1addE 5) 2) 776
      ∧ near5pct (exRow (s1addE 5) 3) (153718 / 10000)
      ∧ tailDecayOK (s1addE 5) = true)
    ∧ (near5pct (exRow (s1addE 10) 2) (77616 / 100)
      ∧ near5pct (exRow (s1addE 10) 3) (153718 / 10000)
      ∧ tailDecayOK (s1addE 10) = true)
    ∧ (near5pct (exRow (s1addE 20) 2) (77624 / 100)
      ∧ near5pct (exRow (s1addE 20) 3) (153718 / 10000)
      ∧ tailDecayOK (s1addE 20) = true) := by
  rw [s1run_1, s1run_2, s1run_5, s1run_10, s1run_20]
  decide

/-! ## Scenario S5 (test_arcticpy.py:763-844): 6×4 round-trip

The round-trip test: a 6×4 image with 200 electrons at (1,0), (2,1) and
(3,2), clocked parallel then serial with the same instant-capture trap,
CCD and standard ROE (`use_integer_express_matrix=False`, express 0), then
`remove_cti` with 2..6 iterations.  `remove_cti` and `add_cti` both use
their default `allow_negative_pixels=1`, so no clipping occurs anywhere.
Each of the seven `add_cti` evaluations is a separate lemma through
literal intermediate estimates, and `remove_cti` is bridged to the
iterates by `remove_cti_loop_shift`. -/

/-- The S5 `ROE(dwell_times=[1.0], empty_traps_between_columns=True,
empty_traps_for_first_transfers=False, force_release_away_from_readout=
True, use_integer_express_matrix=False)` — the constructor defaults. -/
def s5roe : ROE := ROE_init [1] 0 (-1) true false true false 0 0 1 1

/-- The S5 pre-CTI image. -/
def s5orig : Image :=
  [[0, 0, 0, 0], [200, 0, 0, 0], [0, 200, 0, 0],
   [0, 0, 200, 0], [0, 0, 0, 0], [0, 0, 0, 0]]

/-- S5's `add_cti` call: both directions with the same trap, CCD and ROE,
express 0 (test_arcticpy.py:801-819). -/
def s5addE (img : Image) : Except String Image :=
  add_cti img (some icTraps10) s5roe vol1000 0 0 (some icTraps10) s5roe
    vol1000 0 0 true mkDynIC

/-- The total corrector function `remove_cti` iterates: S5's `add_cti`
(which always succeeds on these inputs, as the `s5add…` lemmas show). -/
def s5addF (img : Image) : Image :=
  match s5addE img with
  | .ok out => out
  | .error _ => img

def s5trailed : Image :=
  [[mkRat 0 1, mkRat 0 1, mkRat 0 1, mkRat 0 1],
    [mkRat 62118837 320000, mkRat 2056811551 1024000000, mkRat 1298079179567 819200000000, mkRat 642847090560971 655360000000000],
    [mkRat 11985861591 4096000000, mkRat 1249224200516969 6553600000000, mkRat 62816413119875363 20971520000000000, mkRat 32229059281998176067 16777216000000000000],
    [mkRat 25634556727263 13107200000000, mkRat 86270764076163593 20971520000000000, mkRat 12561175904569871378289 67108864000000000000, mkRat 808865010689510567464947 214748364800000000000000],
    [mkRat 10330615887417243 8388608000000000, mkRat 163613383674241101699 67108864000000000000, mkRat 2056699440865437798971109 429496729600000000000000, mkRat 131542810473373537224808863 1374389534720000000000000000],
    [mkRat 100321628628469761711 134217728000000000000, mkRat 317178563796668415099723 214748364800000000000000, mkRat 3975774828393971604898179773 1374389534720000000000000000, mkRat 254278289846272794933713971623 4398046511104000000000000000000]]

def s5tr1 : Image :=
  [[mkRat 0 1, mkRat 0 1, mkRat 0 1, mkRat 0 1],
    [mkRat 1011577607293899175297585389 5368709120000000000000000, mkRat 13422394272737359203447029619123 3435973836800000000000000000000, mkRat 27169512212729980407300599486622471227 8796093022208000000000000000000000000, mkRat 5411844003766032328310862548953722588460423 2814749767106560000000000000000000000000000],
    [mkRat 391287814098883349678492199507 68719476736000000000000000000, mkRat 399752053436480972570967188665291343 2199023255552000000000000000000000, mkRat 40597008426083180570648123094780227074119 7036874417766400000000000000000000000000, mkRat 3349281320828277508230000728858926613629626389 900719925474099200000000000000000000000000000],
    [mkRat 33641618851083657620261449552851 8796093022208000000000000000000, mkRat 35616424413956574925359930889014844722877 4503599627370496000000000000000000000000, mkRat 10111027319474378587340258141423588667410526887 57646075230342348800000000000000000000000000, mkRat 164870349027700602588302119544232231279995313709097 23058430092136939520000000000000000000000000000000],
    [mkRat 1707150588846133524373101288086408547 703687441776640000000000000000000000, mkRat 272926386524193964152938645219776544534044911 57646075230342348800000000000000000000000000, mkRat 6709396790856292605098774110523705389692562430429 737869762948382064640000000000000000000000000000, mkRat 536729883849810822944527260223093582339827635405001279 1475739525896764129280000000000000000000000000000000000],
    [mkRat 83689332068930638177605558878215018278579 56294995342131200000000000000000000000000, mkRat 13357578574737866980288476362748280560648192068447 4611686018427387904000000000000000000000000000000, mkRat 327518943393942544480894133992657268709232708601999917 59029581035870565171200000000000000000000000000000000, mkRat 26208615497851141974181199636137384487381564489764503053487 118059162071741130342400000000000000000000000000000000000000]]

def s5e1 : Image :=
  [[mkRat 0 1, mkRat 0 1, mkRat 0 1, mkRat 0 1],
    [mkRat 1072784684741684824702414611 5368709120000000000000000, mkRat 380634392231447196552970380877 3435973836800000000000000000000, mkRat 706525906563901796859400513377528773 8796093022208000000000000000000000000, mkRat 110170456810209149697969451046277411539577 2814749767106560000000000000000000000000000],
    [mkRat 10890963617737962321507800493 68719476736000000000000000000, mkRat 438588116343539050561192811334708657 2199023255552000000000000000000000, mkRat 1558372824212133754528196905219772925881 7036874417766400000000000000000000000000, mkRat 111287569097407685255371891941073386370373611 900719925474099200000000000000000000000000000],
    [mkRat 764500771119897564378550447149 8796093022208000000000000000000, mkRat 1436586616848853582725521910985155277123 4503599627370496000000000000000000000000, mkRat 11468908564297947219330821633194011332589473113 57646075230342348800000000000000000000000000, mkRat 8832089361806312287115330024433368720004686290903 23058430092136939520000000000000000000000000000000],
    [mkRat 26039152716174154981778711913591453 703687441776640000000000000000000000, mkRat 8159266303312375613547369141823455465955089 57646075230342348800000000000000000000000000, mkRat 357368678118540421543734372557305810307437569571 737869762948382064640000000000000000000000000000, mkRat (-254243849346278012358330927005121358339827635405001279) 1475739525896764129280000000000000000000000000000000000],
    [mkRat 466549579650408907093269921784981721421 56294995342131200000000000000000000000000, mkRat 265137010251537385806152273841799439351807931553 4611686018427387904000000000000000000000000000000, mkRat 13997513890299860450912176706616807450767291398000083 59029581035870565171200000000000000000000000000000000, mkRat (-12557153760694260452495999686899171469781564489764503053487) 118059162071741130342400000000000000000000000000000000000000]]

def s5tr2 : Image :=
  [[mkRat 0 1, mkRat 0 1, mkRat 0 1, mkRat 0 1],
    [mkRat 436733182439242741484970161540192715288944300679 2251799813685248000000000000000000000000000000, mkRat 156034085782227460213555345681166779992313011439085290353 73786976294838206464000000000000000000000000000000000000, mkRat 1255652308734396871444557275073603206483204927853587671790519751 755578637259143234191360000000000000000000000000000000000000000, mkRat 77006655143061612459737590590767107745048111436714238485240342941 75557863725914323419136000000000000000000000000000000000000000000],
    [mkRat 88722667992422439319978443330077563742464674942777 28823037615171174400000000000000000000000000000000, mkRat 1122125572870286450914287538396021952012020997708742486219817 5902958103587056517120000000000000000000000000000000000000, mkRat 1935353956703707134769028147348620919495289101954712965736890243317 604462909807314587353088000000000000000000000000000000000000000000, mkRat 123115864317408038186247853049191635280238536971697112872874725661157 60446290980731458735308800000000000000000000000000000000000000000000],
    [mkRat 7525906413229091015819297860189450172813137988578233 3689348814741910323200000000000000000000000000000000, mkRat 13648814424443806547064715510082671889540727807380491805021937947823 3094850098213450687247810560000000000000000000000000000000000000000, mkRat 7376697606424625469668575280519245786557254789023576897350890726934856733 39614081257132168796771975168000000000000000000000000000000000000000000, mkRat 65168602634801982964338721133316831583094650515480538519065840677250231439499 15845632502852867518708790067200000000000000000000000000000000000000000000000],
    [mkRat 374295157503001121082296074239350665327105588361654510697 295147905179352825856000000000000000000000000000000000000, mkRat 101882806944236516002062044833472409443227267539877228580687495058539829 39614081257132168796771975168000000000000000000000000000000000000000000, mkRat 2650487113712254434953684652421232246925327840157294237123714192935834404687 507060240091291760598681282150400000000000000000000000000000000000000000000, mkRat (-18673510125427270799823124017713882353014411248235738683888392473812827085599) 324518553658426726783156020576256000000000000000000000000000000000000000000000],
    [mkRat 17862660476699281814426167092021330712643344968468578643911769 23611832414348226068480000000000000000000000000000000000000000, mkRat 4856658424783917805976996381790457997970134941444962812782746252817600489221 3169126500570573503741758013440000000000000000000000000000000000000000000000, mkRat 25232575305468394718250412652635153652637234878948232092995540618570449290919923 8112963841460668169578900514406400000000000000000000000000000000000000000000000, mkRat (-1580904525617476221383686852403085732702857001415385045780045931169048881818367) 41538374868278621028243970633760768000000000000000000000000000000000000000000000]]

def s5e2 : Image :=
  [[mkRat 0 1, mkRat 0 1, mkRat 0 1, mkRat 0 1],
    [mkRat 450347781942536926890693479717381684711055699321 2251799813685248000000000000000000000000000000, mkRat 348867304085961516562848906450114000646988560914709647 73786976294838206464000000000000000000000000000000000000, mkRat 2304525159143034386213890742438725143475228306412328209480249 755578637259143234191360000000000000000000000000000000000000000, mkRat 65934026264937591487818093170207661864489967496961514759657059 75557863725914323419136000000000000000000000000000000000000000000],
    [mkRat 188336038747623082058902033821623457535325057223 28823037615171174400000000000000000000000000000000, mkRat 1180401565988388598990780533074322917677404922291257513780183 5902958103587056517120000000000000000000000000000000000000, mkRat 9069087799917947759223843343033008688813437800807034263109756683 604462909807314587353088000000000000000000000000000000000000000000, mkRat 469941520367385794321483115799940219710319318090791127125274338843 60446290980731458735308800000000000000000000000000000000000000000000],
    [mkRat 10234708796379083824837833278433756786862011421767 3689348814741910323200000000000000000000000000000000, mkRat 69718029165055965518499342219484823535288507724788194978062052177 3094850098213450687247810560000000000000000000000000000000000000000, mkRat 7919485855937533687405756087460339517367539773249433094329109273065143267 39614081257132168796771975168000000000000000000000000000000000000000000, mkRat 584466328958205393646916427925125019087478858306329850260239322749768560501 15845632502852867518708790067200000000000000000000000000000000000000000000000],
    [mkRat 102688026092558648817893786051763241265611638345489303 295147905179352825856000000000000000000000000000000000000, mkRat 304493066412491837476313450239668340579060245685866459312504941460171 39614081257132168796771975168000000000000000000000000000000000000000000, mkRat 23216898129087512251039871252762081466045226541772922878845807064165595313 507060240091291760598681282150400000000000000000000000000000000000000000000, mkRat (-6175635641828513312180830902181407903495714644448662373041992626987172914401) 324518553658426726783156020576256000000000000000000000000000000000000000000000],
    [mkRat (-18207848778174940783442229861327115235046370068578643911769) 23611832414348226068480000000000000000000000000000000000000000, mkRat 6271774913533383656088294922549385840903539274003825727333747182399510779 3169126500570573503741758013440000000000000000000000000000000000000000000000, mkRat 160060596129835199486554376260548709886966027960967148293597557429550709080077 8112963841460668169578900514406400000000000000000000000000000000000000000000000, mkRat (-435660630729050033301223201502010037423178806222403000057782472944522958181633) 41538374868278621028243970633760768000000000000000000000000000000000000000000000]]

def s5tr3 : Image :=
  [[mkRat 0 1, mkRat 0 1, mkRat 0 1, mkRat 0 1],
    [mkRat 4583437280961078213258231905222473345297830223031375562477560997 23611832414348226068480000000000000000000000000000000000000000, mkRat 102078963907885748890298428330917595191116529122993842277507396004005484595117779179 50706024009129176059868128215040000000000000000000000000000000000000000000000000000, mkRat 164857633814758648781770522920823614530834828405722905271124295579450207985200996948596889 103845937170696552570609926584401920000000000000000000000000000000000000000000000000000000, mkRat 2039102990669551534885656301688435506717815016248160852274884040519556729037044899920046823 2076918743413931051412198531688038400000000000000000000000000000000000000000000000000000000],
    [mkRat 886302489042882254232353921005419919089922054874969427940444128411 302231454903657293676544000000000000000000000000000000000000000000, mkRat 773108954413490501638674084423181301024168484820564941572516811601268750421576791426131 4056481920730334084789450257203200000000000000000000000000000000000000000000000000000, mkRat 125003742931046475404852195403438840955458304775991740476165414628057380760006289690855255797 41538374868278621028243970633760768000000000000000000000000000000000000000000000000000000000, mkRat 8009782692685776942943107914233376339340101630189810190083716609048162807127803490260148630077 4153837486827862102824397063376076800000000000000000000000000000000000000000000000000000000000],
    [mkRat 3030576531489781214545831658671951417828775482485463375230237121107 1547425049106725343623905280000000000000000000000000000000000000000, mkRat 8793553246064776932978098951819367131903605646073964086700241234109196968191179410058490850893 2126764793255865396646091296448551321600000000000000000000000000000000000000000000000000000000, mkRat 5093308395466765308889990234700367745644906716301363543721847970720043953986655140867306147044759831 27222589353675077077069968594541456916480000000000000000000000000000000000000000000000000000000000, mkRat 41378949112595208741040673381929952687406548774130608547522994378558898838855861278229746972075043445473 10889035741470030830827987437816582766592000000000000000000000000000000000000000000000000000000000000000],
    [mkRat 95312231415356499632708523499103673626224525942478965048036076972613100851 77371252455336267181195264000000000000000000000000000000000000000000000000, mkRat 13313640184719115287868514274513634938785306163967078104962719274702169824160129011112297449689107 5444517870735015415413993718908291383296000000000000000000000000000000000000000000000000000000000, mkRat 336621798819724993271918979472285227824644590114172494900742133473295180342525354579183569810403597321 69689828745408197317299119602026129706188800000000000000000000000000000000000000000000000000000000000, mkRat 438738660153996465162840340746083114645712436765526963777818101480281375729789691484632737501522094665779 5575186299632655785383929568162090376495104000000000000000000000000000000000000000000000000000000000000000],
    [mkRat 4622092633125068258186197645842933245654172298225073400523671402809790272164227 6189700196426901374495621120000000000000000000000000000000000000000000000000000, mkRat 3220787104917227937962775567589727986627250374518804014424429838960210487729294873022070458363622035919 2177807148294006166165597487563316553318400000000000000000000000000000000000000000000000000000000000000, mkRat 81143778425811729975977269527432618427087089423872149063858989808167344149088981763205655440389180200896893 27875931498163278926919647840810451882475520000000000000000000000000000000000000000000000000000000000000000, mkRat 21580145177054683304371074590154480661699297907730893072222152704005507595512864902904437127451545717271292131 446014903970612462830714365452967230119608320000000000000000000000000000000000000000000000000000000000000000000]]

def s5e3 : Image :=
  [[mkRat 0 1, mkRat 0 1, mkRat 0 1, mkRat 0 1],
    [mkRat 4722362630202616281964688524658858828977969186680793397522439003 23611832414348226068480000000000000000000000000000000000000000, mkRat 9150767887671205120853958453678263003557070608522807164716717914515404882220821 50706024009129176059868128215040000000000000000000000000000000000000000000000000000, mkRat 10182823551376561420017956144231325189460021866676064905653432163766542799003051403111 103845937170696552570609926584401920000000000000000000000000000000000000000000000000000000, mkRat (-26859444477279506292267464428896197250467165795715089198610960641257267444899920046823) 2076918743413931051412198531688038400000000000000000000000000000000000000000000000000000000],
    [mkRat 72842547104772392761555808745507296163555197057216539555871589 302231454903657293676544000000000000000000000000000000000000000000, mkRat 811289153049392074994052822168317897457200222281894643771508039261958129578423208573869 4056481920730334084789450257203200000000000000000000000000000000000000000000000000000, mkRat 40204717653021495594477452046531127361995326405001516903511199334658266681710309144744203 41538374868278621028243970633760768000000000000000000000000000000000000000000000000000000000, mkRat 2040025427924470512435582383316363349821788448861314712603899437576512528644509739851369923 4153837486827862102824397063376076800000000000000000000000000000000000000000000000000000000000],
    [mkRat 110503815751992180675254280006564153840765709972926286562878893 1547425049106725343623905280000000000000000000000000000000000000000, mkRat 3251487831841333597518405854658450669023670182453299852982438140220728351540589941509149107 2126764793255865396646091296448551321600000000000000000000000000000000000000000000000000000000, mkRat 5444339140915156981208785382804627850232273771226460262787529211459975887504480224252693852955240169 27222589353675077077069968594541456916480000000000000000000000000000000000000000000000000000000000, mkRat 37021742529828918992495808334109610272621756270331077542014418296052322571465501817613027924956554527 10889035741470030830827987437816582766592000000000000000000000000000000000000000000000000000000000000000],
    [mkRat (-2198665952608045551346631995576203106193445156525100190444972613100851) 77371252455336267181195264000000000000000000000000000000000000000000000000, mkRat 2103680949590375500109341836052431421140316841962584066737473054944701650034700887702550310893 5444517870735015415413993718908291383296000000000000000000000000000000000000000000000000000000000, mkRat 287671291876240703861193200468751568583845179387627263192999696858963830201233697552430189596402679 69689828745408197317299119602026129706188800000000000000000000000000000000000000000000000000000000000, mkRat (-11234240121361609170722066922370229923212092226439103188862542950613514445186901203416737501522094665779) 5575186299632655785383929568162090376495104000000000000000000000000000000000000000000000000000000000000000],
    [mkRat (-347190517386475824946895917263543510348293860330880553278175545790272164227) 6189700196426901374495621120000000000000000000000000000000000000000000000000000, mkRat 95600196407665215247240663115972959985273442482451892015258227875599567057844351369541636377964081 2177807148294006166165597487563316553318400000000000000000000000000000000000000000000000000000000000000, mkRat 44479156167456719788713073414947078339061547243960263670117164108977546489051004923778159610819799103107 27875931498163278926919647840810451882475520000000000000000000000000000000000000000000000000000000000000000, mkRat (-471133440003857776482672804211951451875592542324780138053467282952334914791088310090357127451545717271292131) 446014903970612462830714365452967230119608320000000000000000000000000000000000000000000000000000000000000000000]]

def s5tr4 : Image :=
  [[mkRat 0 1, mkRat 0 1, mkRat 0 1, mkRat 0 1],
    [mkRat 240310415081388136600356008620343534546494009662763771121555738361245289027 1237940039285380274899124224000000000000000000000000000000000000000000000, mkRat 69995733817552302183434804162660905368168706048190152315030418389751597430817840035571887180137340500020871681 34844914372704098658649559801013064853094400000000000000000000000000000000000000000000000000000000000000000000, mkRat 565427370015422367713972763489154241318370267495022813791828358413896611245158682484632020755885583798389511278436279 356811923176489970264571492362373784095686656000000000000000000000000000000000000000000000000000000000000000000000000, mkRat 34999578366498952488600294196589145586409830746908909085051074104926582362893333352619463276691076952152948919569954029 35681192317648997026457149236237378409568665600000000000000000000000000000000000000000000000000000000000000000000000000],
    [mkRat 5796467845040464670403293124347779604287292862869113699418900910923145280015113 1980704062856608439838598758400000000000000000000000000000000000000000000000000, mkRat 531356504003922106717224122956727376917066382852982971075725416860351616185471478327474016161090834261687606948409 2787593149816327892691964784081045188247552000000000000000000000000000000000000000000000000000000000000000000000, mkRat 427635947147856136371026109555852579694762844421838880940249394633251684896314658347183393440651262867222011103087559707 142724769270595988105828596944949513638274662400000000000000000000000000000000000000000000000000000000000000000000000000, mkRat 27424041690043832590054062622473383290012431658747539555005458034082659940220794145897547185135068215014394844399987711507 14272476927059598810582859694494951363827466240000000000000000000000000000000000000000000000000000000000000000000000000000],
    [mkRat 12396554991494995683731358234632029436109303453509418357147180576364495342242259041 6338253001141147007483516026880000000000000000000000000000000000000000000000000000, mkRat 6014284358702142847610920009921569999259105307050741439364014199777236813502400666550708290582504578962874920451755935143 1461501637330902918203684832716283019655932542976000000000000000000000000000000000000000000000000000000000000000000000000, mkRat 3501431336487211634947592167571517178807127882118697233474426876121087615787361766613210298077533372402996734954602304154849157 18707220957835557353007165858768422651595936550092800000000000000000000000000000000000000000000000000000000000000000000000000, mkRat 28208028717723593540098206514378822612382412380742114369493406927740420342008527066316179235697794729490126626508553811716771405411 7482888383134222941202866343507369060638374620037120000000000000000000000000000000000000000000000000000000000000000000000000000000],
    [mkRat 15610852784043496894763636896861449193134991996872121205800728409470020512552302356305449 12676506002282294014967032053760000000000000000000000000000000000000000000000000000000000, mkRat 45615697104411737986341603397278541753603883304953775222294001500184597749984354055634495188576976465468467439869850276254557 18707220957835557353007165858768422651595936550092800000000000000000000000000000000000000000000000000000000000000000000000000, mkRat 1147551380394457271165689849483470123862244407570996063043775598495369441051220635907413980686902359891288641135823282512345491271 239452428260295134118491722992235809940427987841187840000000000000000000000000000000000000000000000000000000000000000000000000000, mkRat 1798444490758976399362881752123592156903607274452096192044836400032448627125393414680528105867480767172087449449779257127429405789501 19156194260823610729479337839378864795234239027295027200000000000000000000000000000000000000000000000000000000000000000000000000000000],
    [mkRat 18948858650336158444071094204077660762462665116784203472944991207019994311954584961850880381169 25353012004564588029934064107520000000000000000000000000000000000000000000000000000000000000000, mkRat 2210481473236523098017477632833309956548871638869294186120072854158719511879824181895502988414845002088777289027476189118090402733 1496577676626844588240573268701473812127674924007424000000000000000000000000000000000000000000000000000000000000000000000000000000, mkRat 55442427508494408635377648436913439608989661702963560747127641638818942852459590129654226290677770930493320936792630310291851980155703 19156194260823610729479337839378864795234239027295027200000000000000000000000000000000000000000000000000000000000000000000000000000000, mkRat 87129329067249156705666429024183627664506462341226511245528049798535843902469065460989682660414207963269543702558810837175722350436443021 1532495540865888858358347027150309183618739122183602176000000000000000000000000000000000000000000000000000000000000000000000000000000000000]]

def s5e4 : Image :=
  [[mkRat 0 1, mkRat 0 1, mkRat 0 1, mkRat 0 1],
    [mkRat 247588001772922959984370156580689243226226141231886209758468711639241110973 1237940039285380274899124224000000000000000000000000000000000000000000000, mkRat 224830718084930146427714578335338843445073399154609072393256415970727207333909715356022422659499979128319 34844914372704098658649559801013064853094400000000000000000000000000000000000000000000000000000000000000000000, mkRat 841162411198587666738647252834821639486608257201064968245439426214208841879441112434170240701001610488721563721 356811923176489970264571492362373784095686656000000000000000000000000000000000000000000000000000000000000000000000000, mkRat (-115081149252508097406055712007765211995491110762549551241132624907735501326035173839754985879384152948919569954029) 35681192317648997026457149236237378409568665600000000000000000000000000000000000000000000000000000000000000000000000000],
    [mkRat 16554951112464677422459354821352328844612470320474894732449122525119984887 1980704062856608439838598758400000000000000000000000000000000000000000000000000, mkRat 557518366496085377615259191791108798852241429090209986990866123176639446768233793364070648669025005738312393051591 2787593149816327892691964784081045188247552000000000000000000000000000000000000000000000000000000000000000000000, mkRat 8549968409199101253327881568619114192568285307751032495382797717990475472535428114787425085205203177988896912440293 142724769270595988105828596944949513638274662400000000000000000000000000000000000000000000000000000000000000000000000000, mkRat 419224236874849245024254234701007926575130562268435978699875586511191625815800136544896240998215552005155600012288493 14272476927059598810582859694494951363827466240000000000000000000000000000000000000000000000000000000000000000000000000000],
    [mkRat 8632919975815694011487776347965864828322838630748922580975581232657757740959 6338253001141147007483516026880000000000000000000000000000000000000000000000000000, mkRat 144820925387655662174826795672239063695872889196269140920389002697760976186025451744245145391837784645079548244064857 1461501637330902918203684832716283019655932542976000000000000000000000000000000000000000000000000000000000000000000000000, mkRat 3741434823404610874436080133515128847441617381772433180965153578257354760177489052049840284057344944025885348885397695845150843 18707220957835557353007165858768422651595936550092800000000000000000000000000000000000000000000000000000000000000000000000000, mkRat 2244466573835232709695495352191694670534982245863329384737787866301061407358846179641006177600973536162293330166188283228594589 7482888383134222941202866343507369060638374620037120000000000000000000000000000000000000000000000000000000000000000000000000000000],
    [mkRat (-27664948421939963285699847553157291910730926566278215930913782950955980142356305449) 12676506002282294014967032053760000000000000000000000000000000000000000000000000000000000, mkRat 285843150540281687841327571175704629019987721701378902913802366337213755946966427764509151887588575794960130149723745443 18707220957835557353007165858768422651595936550092800000000000000000000000000000000000000000000000000000000000000000000000000, mkRat 85305155541180228301982280471606394624887398620945575063531125548289808908320756458693640809343265152787651376717487654508729 239452428260295134118491722992235809940427987841187840000000000000000000000000000000000000000000000000000000000000000000000000000, mkRat (-3605858976485822474023750877209436011893329039555659565337908495392937267554474901534450689924084620836933740646457127429405789501) 19156194260823610729479337839378864795234239027295027200000000000000000000000000000000000000000000000000000000000000000000000000000000],
    [mkRat (-60881016115136190488369169300492926811728436118759691218614055551266739258753850880381169) 25353012004564588029934064107520000000000000000000000000000000000000000000000000000000000000000, mkRat (-3798011358133342479473631531736980416164658851599307030466699244213368319349826800506152644413349104057831316189118090402733) 1496577676626844588240573268701473812127674924007424000000000000000000000000000000000000000000000000000000000000000000000000000000, mkRat 2351719096564925356972622945996517319756400802140131911911401383348914287416860461543656248235329490220614725557209708148019844297 19156194260823610729479337839378864795234239027295027200000000000000000000000000000000000000000000000000000000000000000000000000000000, mkRat (-145078875433898660500680970863807115998790057576134481711622808882737331162402232258475194306122107532793352404529057975722350436443021) 1532495540865888858358347027150309183618739122183602176000000000000000000000000000000000000000000000000000000000000000000000000000000000000]]

def s5tr5 : Image :=
  [[mkRat 0 1, mkRat 0 1, mkRat 0 1, mkRat 0 1],
    [mkRat 196862447687162241603600796105898850991729015648718815254844195690487197165765063155255741 1014120480182583521197362564300800000000000000000000000000000000000000000000000000000000, mkRat 2404834220689525103421506214046298009240335789016974206148013148909328590771898432734532749039243365788599635412562634644954829573043 1197262141301475670592458614961179049702139939205939200000000000000000000000000000000000000000000000000000000000000000000000000000000, mkRat 388535844423492549985676163998959059411176664862835475648424427092968422892074909702044321499398975736540147364918236270250727139710949328702309 245199286538542217337335524344049469378998259549376348160000000000000000000000000000000000000000000000000000000000000000000000000000000000000000, mkRat 24051692395679836730942891584736773414208399118527187288943800725030827529054298873958474762082335554591292474909877884759979037431030786126593159 24519928653854221733733552434404946937899825954937634816000000000000000000000000000000000000000000000000000000000000000000000000000000000000000000],
    [mkRat 37984816473484160977671247947974059433551318779695876046476498412414861089082949528840013187 12980742146337069071326240823050240000000000000000000000000000000000000000000000000000000000, mkRat 29211877690383871824670743482788856495120234279474148235035060924171425817880394693120976009273034020149515655460370042308839584598988554029 153249554086588885835834702715030918361873912218360217600000000000000000000000000000000000000000000000000000000000000000000000000000000000, mkRat 293785659608671035624662210424096905227330955824696974229187854742545917024393229973588370398289831608248496986167788744687533934098506159287468497 98079714615416886934934209737619787751599303819750539264000000000000000000000000000000000000000000000000000000000000000000000000000000000000000000, mkRat 18841401904467737714768835714175816083547845132809800525824467630003473654772190116842249442570273964946574759415788100106711652383248393506253567297 9807971461541688693493420973761978775159930381975053926400000000000000000000000000000000000000000000000000000000000000000000000000000000000000000000],
    [mkRat 2030980233600210829014761882583691152811143236940019903999951167010468322756670793963827522597459 1038459371706965525706099265844019200000000000000000000000000000000000000000000000000000000000000, mkRat 4131642116021344976018818692876097075227425329657898410463426913116075004470457639828853961259068907177147690078100966773420688714610249480027369781 1004336277661868922213726307713226626576376871114245522063360000000000000000000000000000000000000000000000000000000000000000000000000000000000000000, mkRat 2406237300067326806064862138690032536291391702564422672327032428163940026187840852287067807897631191598726059881261330115354560934170771968214563002936143 12855504354071922204335696738729300820177623950262342682411008000000000000000000000000000000000000000000000000000000000000000000000000000000000000000000, mkRat 19369880200566420316287137824226648632564101478405080411489667162769989341516877641932201161329241671651355909455101051310297852659384924559624853972799788137 5142201741628768881734278695491720328071049580104937072964403200000000000000000000000000000000000000000000000000000000000000000000000000000000000000000000000],
    [mkRat 2557732287205374087429995886598884375197289552949758982420576245963686107888610713972081438999507198251 2076918743413931051412198531688038400000000000000000000000000000000000000000000000000000000000000000000, mkRat 31342291220891914026224022165601802364143421254998535277224947201362450802940829657652954172898451852906056270739700022829396525030903715457808774009047 12855504354071922204335696738729300820177623950262342682411008000000000000000000000000000000000000000000000000000000000000000000000000000000000000000000, mkRat 788024419922061695099207109846959444506544161374968509000748659515277237898972860362772346199990776096781803230278706813825628739543527017555261215987781141 164550455732120604215496918255735050498273586563357986334860902400000000000000000000000000000000000000000000000000000000000000000000000000000000000000000000, mkRat 1257670898649359943057493966151190351839278085233458370081084690395975012382263953527039727257159690581243310346011217935354247740247773401145371011119801452151 13164036458569648337239753460458804039861886925068638906788872192000000000000000000000000000000000000000000000000000000000000000000000000000000000000000000000000],
    [mkRat 77619859398571783597007807603942590154683464782065744408745803742244963110787623110120876896594073557080602443 103845937170696552570609926584401920000000000000000000000000000000000000000000000000000000000000000000000000000, mkRat 1518981415008316932062908903712314124917693636954951111910649335794379477804013968808634431958380080650380997019588524418832639062156612311043387054855714247 1028440348325753776346855739098344065614209916020987414592880640000000000000000000000000000000000000000000000000000000000000000000000000000000000000000000000, mkRat 38081855182784793082883641833256734322964177154431451866897914675451903132296939286061253143301652408294522322480483130652111809348132762928087714228719312813541 13164036458569648337239753460458804039861886925068638906788872192000000000000000000000000000000000000000000000000000000000000000000000000000000000000000000000000, mkRat 60796329569443462775335668159227218576949802674197709036239033481021502901717157963856716269655959836181874387286168594873595301914225857130478409700575056628831591 1053122916685571866979180276836704323188950954005491112543109775360000000000000000000000000000000000000000000000000000000000000000000000000000000000000000000000000000]]

def s5e5 : Image :=
  [[mkRat 0 1, mkRat 0 1, mkRat 0 1, mkRat 0 1],
    [mkRat 202824095886540109691048392295324946339195439248442367779293372884379120943316536844744259 1014120480182583521197362564300800000000000000000000000000000000000000000000000000000000, mkRat 264009216529481086305911920668934079291472671875272895602552731700791692259694101417243172356145432915088977008747045170426957 1197262141301475670592458614961179049702139939205939200000000000000000000000000000000000000000000000000000000000000000000000000000000, mkRat (-1854272783373298302037498113384733978767117129360117747822434544646944287904483895480177102576535108582567351202239780579710949328702309) 245199286538542217337335524344049469378998259549376348160000000000000000000000000000000000000000000000000000000000000000000000000000000000000000, mkRat (-6348391806447989325524750413140726344880441977042386650129964263906493597031671272749667776338069298278351715794964528730871030786126593159) 24519928653854221733733552434404946937899825954937634816000000000000000000000000000000000000000000000000000000000000000000000000000000000000000000],
    [mkRat 3621252526214179340037760655564110997272589616217793620166154519537250005914359986813 12980742146337069071326240823050240000000000000000000000000000000000000000000000000000000000, mkRat 30649910073855510900530250635098125748181303993048587002220044736730642086799247344392051286304160576359464343107066575520741215401011445971 153249554086588885835834702715030918361873912218360217600000000000000000000000000000000000000000000000000000000000000000000000000000000000, mkRat 345887928074254365004949640958007292269849843483946028130561006043379285814796004328949667449409527262626518618684750491302381493840712531503 98079714615416886934934209737619787751599303819750539264000000000000000000000000000000000000000000000000000000000000000000000000000000000000000000, mkRat 15348344220658914523223332568980710627364930349797720222947072259847111148752102795783636254142283860557468282945697376687605231606493746432703 9807971461541688693493420973761978775159930381975053926400000000000000000000000000000000000000000000000000000000000000000000000000000000000000000000],
    [mkRat 7186119124084577544216550467126518235473861357903524500028760835890357484758732477402541 1038459371706965525706099265844019200000000000000000000000000000000000000000000000000000000000000, mkRat 6193342467528884478148994956554464542937208004377977235677122738585795965402431540464189837446165314343142223307272486177952909750519972630219 1004336277661868922213726307713226626576376871114245522063360000000000000000000000000000000000000000000000000000000000000000000000000000000000000000, mkRat 2571100390717979418100557155217246348773116708144326947094993871732291877049317329145269117230312284110414444264071974782033911205322112511785436997063857 12855504354071922204335696738729300820177623950262342682411008000000000000000000000000000000000000000000000000000000000000000000000000000000000000000000, mkRat 131279557922277949848671993717016120761443490315555158943290767598711608673394560255264679291152200736654257126582117133379188902685255415146027200211863 5142201741628768881734278695491720328071049580104937072964403200000000000000000000000000000000000000000000000000000000000000000000000000000000000000000000000],
    [mkRat (-212328228455969406625085771089169109807104767601443474366877884792516397237629166203159507198251) 2076918743413931051412198531688038400000000000000000000000000000000000000000000000000000000000000000000, mkRat 2822369711357138608282198590171317804511379350416256820573402529444161498909757871189213044129430158540613998691901821445214236764542191225990953 12855504354071922204335696738729300820177623950262342682411008000000000000000000000000000000000000000000000000000000000000000000000000000000000000000000, mkRat 4881841367609339647134841801059126856512520441765027485642451275081452001751975030544993954711950429249474664597343823555058536717267884738784012218859 164550455732120604215496918255735050498273586563357986334860902400000000000000000000000000000000000000000000000000000000000000000000000000000000000000000000, mkRat (-219010548516032186110311458923774711093906330678618985930601858441814346591324983126653006047463408320300836410494617046312126586950226632731011119801452151) 13164036458569648337239753460458804039861886925068638906788872192000000000000000000000000000000000000000000000000000000000000000000000000000000000000000000000000],
    [mkRat (-8213775549145371174202941952711294318581740086848441035185416501099351626965894082937862297557080602443) 103845937170696552570609926584401920000000000000000000000000000000000000000000000000000000000000000000000000000, mkRat (-479117344872952739487602828848060647934265950640980375905738991332731082386407049062077076806930622238505411839122440536935709255505923387054855714247) 1028440348325753776346855739098344065614209916020987414592880640000000000000000000000000000000000000000000000000000000000000000000000000000000000000000000000, mkRat 118381276454261878502443725246801393624898297624748151072761320267474296923523538958931780337479365042780250922346319649702645213577409658205771280687186459 13164036458569648337239753460458804039861886925068638906788872192000000000000000000000000000000000000000000000000000000000000000000000000000000000000000000000000, mkRat (-8473055930942128216050436241497811659484119213363575879905096532933455152627924232323818195486214491625218662753437479581775050349713412469004260575056628831591) 1053122916685571866979180276836704323188950954005491112543109775360000000000000000000000000000000000000000000000000000000000000000000000000000000000000000000000000000]]

def s5tr6 : Image :=
  [[mkRat 0 1, mkRat 0 1, mkRat 0 1, mkRat 0 1],
    [mkRat 32253944197258841839519602450033113252108543601507039873973156045446874957027906106072109084720406811559 166153499473114484112975882535043072000000000000000000000000000000000000000000000000000000000000000000, mkRat 1652584541113536605684163006816907436197861580762744915227254409197011260011658453206521108310186205142612582126861974941828386683783711179198875559239044491353 822752278660603021077484591278675252491367932816789931674304512000000000000000000000000000000000000000000000000000000000000000000000000000000000000000000000000, mkRat 266999400712193236259334712747245260171827590906830587631425125556876889356568059696916224578253817239703582756756588362874510233773873052502984978914337043771169477175023 168499666669691498716668844293872691710232152640878578006897564057600000000000000000000000000000000000000000000000000000000000000000000000000000000000000000000000000000000, mkRat 16528243112123355986977382824877253263447343099720043194220862189909769738448819651374024313826115358191338028964507939996089069278802296119807958553392110353380395047189973 16849966666969149871666884429387269171023215264087857800689756405760000000000000000000000000000000000000000000000000000000000000000000000000000000000000000000000000000000000],
    [mkRat 6223415722583689667704571467510006240928689330412724819127089193911249520261992371194354736431525423150617 2126764793255865396646091296448551321600000000000000000000000000000000000000000000000000000000000000000000, mkRat 20074258450891329421110689124222242253185798226762740843330850823649457154403566112274849548822244351410473080057841783473368487506312886756875059323306366232284528711 105312291668557186697918027683670432318895095400549111254310977536000000000000000000000000000000000000000000000000000000000000000000000000000000000000000000000000000, mkRat 201884392460659400898789754124895284492665664011373107612981121598839165464114764685041551522650528553535965620506346196779179432297425954847344669866366958883622190120023859 67399866667876599486667537717549076684092861056351431202759025623040000000000000000000000000000000000000000000000000000000000000000000000000000000000000000000000000000000000, mkRat 12947535430432600374310352217108009839295294539462155608814717184262014842052105205381603080604684065827881674869162198537967595740516487811679817095231379455431180413345846659 6739986666787659948666753771754907668409286105635143120275902562304000000000000000000000000000000000000000000000000000000000000000000000000000000000000000000000000000000000000],
    [mkRat 332755572271621723333139287869158793105014713978314707410292973285351574025883507952402889695143192618639119241 170141183460469231731687303715884105728000000000000000000000000000000000000000000000000000000000000000000000000, mkRat 2839182707754601599279553925020017662019622470996180095811678758639096628500809160809663469850332452119825115289823913723364341715997745075524918833064213667178975413144487007 690174634679056378743475586227702545245110897217038655516252422379929600000000000000000000000000000000000000000000000000000000000000000000000000000000000000000000000000000000, mkRat 1653557469871472862113446447584026852237329115147400112532343150090530426003172397223406537257298637645386823405503309947050385799385547863330194377363800049854008012686322703435821 8834235323891921647916487503714592579137419484378094790608031006463098880000000000000000000000000000000000000000000000000000000000000000000000000000000000000000000000000000000000, mkRat 13309993372047344408526150959141474939531714693051357232151001303104947400620152097534216854514406871505443289388045629375442356062438116965175174524197816660760640069621142585593059579 3533694129556768659166595001485837031654967793751237916243212402585239552000000000000000000000000000000000000000000000000000000000000000000000000000000000000000000000000000000000000000],
    [mkRat 419059532317733193651094490250622256068465017983656346985802614276698571686869381592799288795623750401311661274108049 340282366920938463463374607431768211456000000000000000000000000000000000000000000000000000000000000000000000000000000, mkRat 21538127767545162158284873389829828758620171378427585984224503731706424150072572258556850539837370405376709268868373383227157358879837638560001616556285984078916967067468953831109 8834235323891921647916487503714592579137419484378094790608031006463098880000000000000000000000000000000000000000000000000000000000000000000000000000000000000000000000000000000000, mkRat 541492412344052761977662660538827351909714087309085539120773930395779625118088626487220918305763395810213113515097038438299214381641915100134744780262488957594172533664911906353193727 113078212145816597093331040047546785012958969400039613319782796882727665664000000000000000000000000000000000000000000000000000000000000000000000000000000000000000000000000000000000000, mkRat 865679469672696665011862679908260957077712857572268507939193206090899950747910457993607194222650786014739271199050107581350143429701179138373024720502743097937472281541400078303488524197 9046256971665327767466483203803742801036717552003169065582623750618213253120000000000000000000000000000000000000000000000000000000000000000000000000000000000000000000000000000000000000000],
    [mkRat 317931899084438240594342238637157333955002726040518204447265518334097372902342826487851541037749282001181942541415894050877321 425352958651173079329218259289710264320000000000000000000000000000000000000000000000000000000000000000000000000000000000000000, mkRat 1043837244902557275650501398270123149263883787779802784989913559059553809052647103926301682252423626858365076791980917874080482222565288979407866557793124967688408445766211764592892309 706738825911353731833319000297167406330993558750247583248642480517047910400000000000000000000000000000000000000000000000000000000000000000000000000000000000000000000000000000000000000, mkRat 26168698092317828496109158636403016411912403450188146253282452709134114028099956109548779097368017642224402200782772880088177836335944738278521881748612533945905101632308842750758385737327 9046256971665327767466483203803742801036717552003169065582623750618213253120000000000000000000000000000000000000000000000000000000000000000000000000000000000000000000000000000000000000000, mkRat 41836261955712608973130278755538543527331866234319400797610940748755970199007025600071658130629655413793755069476545572614291035874985135697824062659556620222842232633191149439763902587228277 723700557733226221397318656304299424082937404160253525246609900049457060249600000000000000000000000000000000000000000000000000000000000000000000000000000000000000000000000000000000000000000000]]

def s5e6 : Image :=
  [[mkRat 0 1, mkRat 0 1, mkRat 0 1, mkRat 0 1],
    [mkRat 33230699893885591360240011244025074010940437164957757662986270167929800218325075290570790309839593188441 166153499473114484112975882535043072000000000000000000000000000000000000000000000000000000000000000000, mkRat 5898835745354148887060032617359513042906226210242473382409868223246385637014679619876481914687131256284194214284486004295180556308524644440760955508647 822752278660603021077484591278675252491367932816789931674304512000000000000000000000000000000000000000000000000000000000000000000000000000000000000000000000000, mkRat (-1268780957440092413806010016391533394876098960502330470035850366278052472958318897033620676736384483294026298623829092560185784812485316382864171283771169477175023) 168499666669691498716668844293872691710232152640878578006897564057600000000000000000000000000000000000000000000000000000000000000000000000000000000000000000000000000000000, mkRat (-331286926583590218713615380413337643711385867391895562457817264701249331856882951143029170436119382170914863799973575849941756347355470059961764600593380395047189973) 16849966666969149871666884429387269171023215264087857800689756405760000000000000000000000000000000000000000000000000000000000000000000000000000000000000000000000000000000000],
    [mkRat 19300579328087500776733263529868530062728357901996217534111506960721048597814385503010394576849383 2126764793255865396646091296448551321600000000000000000000000000000000000000000000000000000000000000000000, mkRat 21062458308114117546175271611525182322320033979933873088216370840458119374857867593577743935502732030060952534937834051463639142865948822965863494983253633767715471289 105312291668557186697918027683670432318895095400549111254310977536000000000000000000000000000000000000000000000000000000000000000000000000000000000000000000000000000, mkRat 13324149451691819840749817151144334940044956720419984071517726413602443619056646689167469107492808690987701738536996483617888328118990376312974389183196377809879976141 67399866667876599486667537717549076684092861056351431202759025623040000000000000000000000000000000000000000000000000000000000000000000000000000000000000000000000000000000000, mkRat 489599537303736802359412794127301425588594406340828017034590530920534957829382031978736820494340712220002934410909196690060648041531709328020936601518648819586654153341 6739986666787659948666753771754907668409286105635143120275902562304000000000000000000000000000000000000000000000000000000000000000000000000000000000000000000000000000000000000],
    [mkRat (-181996698486805724356815816783579273158277262531379519200639398673607337649532160597510875178639119241) 170141183460469231731687303715884105728000000000000000000000000000000000000000000000000000000000000000000000000, mkRat 257296130115872227217683775277808689741272402467896624473534224004532609324340887757765029302573964598847067443310921593471167631968123311823848797184661024586855512993 690174634679056378743475586227702545245110897217038655516252422379929600000000000000000000000000000000000000000000000000000000000000000000000000000000000000000000000000000000, mkRat 1766847040689817793477247989600478177472874297044424614992604358547438434277179994420273221402378379974019655173729317169585194518986678438069944258069434164325299507313677296564179 8834235323891921647916487503714592579137419484378094790608031006463098880000000000000000000000000000000000000000000000000000000000000000000000000000000000000000000000000000000000, mkRat 7456050477910758964117375098676751439426913420048866686279616207667068629226016119251599093836840848287754805225844613052719370529322599138930184461162576357122058857414406940421 3533694129556768659166595001485837031654967793751237916243212402585239552000000000000000000000000000000000000000000000000000000000000000000000000000000000000000000000000000000000000000],
    [mkRat (-1332414117625174205088680804308885621003701470806301454545971216092755905005961879521277409762755501274108049) 340282366920938463463374607431768211456000000000000000000000000000000000000000000000000000000000000000000000000000000, mkRat (-350050925456226427492318634126773831738460514093173062717798914193778610362916896614037266003375537741183219440586340854875581219790471420106799851779222887067468953831109) 8834235323891921647916487503714592579137419484378094790608031006463098880000000000000000000000000000000000000000000000000000000000000000000000000000000000000000000000000000000000, mkRat 270909238814236293136627753290757659432487225486402867182469923337433299730497591177590251325074937926429784501747417687469697375504787403087711157068613737108575088093646806273 113078212145816597093331040047546785012958969400039613319782796882727665664000000000000000000000000000000000000000000000000000000000000000000000000000000000000000000000000000000000000, mkRat (-12796108530212972324389173115655519842154238713930529511180843992571329536372706462222460557017304738053020692430847173816181877045270175803583850672629937768898132760078303488524197) 9046256971665327767466483203803742801036717552003169065582623750618213253120000000000000000000000000000000000000000000000000000000000000000000000000000000000000000000000000000000000000000],
    [mkRat (-861179850459141677246867866353602719555485600178479998453563361405287090540153704751233252794984090147943894050877321) 425352958651173079329218259289710264320000000000000000000000000000000000000000000000000000000000000000000000000000000000000000, mkRat (-29725464084563973840538854300702060398405692519189668686890043366194859022493583388730586621585905661641749840760815753557533498093399687626937933078022211023686211764592892309) 706738825911353731833319000297167406330993558750247583248642480517047910400000000000000000000000000000000000000000000000000000000000000000000000000000000000000000000000000000000000000, mkRat 5654696768927493470361136993897670339458818162323835396527904309758128409706941573477653365482530147173108207304116379193270025982667021540383497707254454523814869397249241614262673 9046256971665327767466483203803742801036717552003169065582623750618213253120000000000000000000000000000000000000000000000000000000000000000000000000000000000000000000000000000000000000000, mkRat (-476118423457355554508339618642406010938055951355951301701790872575727630956740591357008266689497963414522283805551380112538530806059292948371765613345082710983679054819199763902587228277) 723700557733226221397318656304299424082937404160253525246609900049457060249600000000000000000000000000000000000000000000000000000000000000000000000000000000000000000000000000000000000000000000]]


theorem s5addF_eq (img out : Image) (h : s5addE img = .ok out) :
    s5addF img = out := by unfold s5addF; rw [h]

theorem s5add0 : s5addE s5orig = .ok s5trailed := by decide

theorem s5add1 : s5addE s5trailed = .ok s5tr1 := by decide

theorem s5add2 : s5addE s5e1 = .ok s5tr2 := by decide

theorem s5add3 : s5addE s5e2 = .ok s5tr3 := by decide

theorem s5add4 : s5addE s5e3 = .ok s5tr4 := by decide

theorem s5add5 : s5addE s5e4 = .ok s5tr5 := by decide

theorem s5add6 : s5addE s5e5 = .ok s5tr6 := by decide

theorem s5corr_succ (i : ℕ) :
    correctorSpec s5addF s5trailed true (i + 1)
      = imgAdd (correctorSpec s5addF s5trailed true i)
          (imgSub s5trailed
            (s5addF (correctorSpec s5addF s5trailed true i))) := by
  simp [correctorSpec]

theorem s5corr1 : correctorSpec s5addF s5trailed true 1 = s5e1 := by
  show correctorSpec s5addF s5trailed true (0 + 1) = s5e1
  rw [s5corr_succ]
  rw [show correctorSpec s5addF s5trailed true 0 = s5trailed from rfl]
  rw [s5addF_eq _ _ s5add1]
  decide

theorem s5corr2 : correctorSpec s5addF s5trailed true 2 = s5e2 := by
  show correctorSpec s5addF s5trailed true (1 + 1) = s5e2
  rw [s5corr_succ, s5corr1, s5addF_eq _ _ s5add2]
  decide

theorem s5corr3 : correctorSpec s5addF s5trailed true 3 = s5e3 := by
  show correctorSpec s5addF s5trailed true (2 + 1) = s5e3
  rw [s5corr_succ, s5corr2, s5addF_eq _ _ s5add3]
  decide

theorem s5corr4 : correctorSpec s5addF s5trailed true 4 = s5e4 := by
  show correctorSpec s5addF s5trailed true (3 + 1) = s5e4
  rw [s5corr_succ, s5corr3, s5addF_eq _ _ s5add4]
  decide

theorem s5corr5 : correctorSpec s5addF s5trailed true 5 = s5e5 := by
  show correctorSpec s5addF s5trailed true (4 + 1) = s5e5
  rw [s5corr_succ, s5corr4, s5addF_eq _ _ s5add5]
  decide

theorem s5corr6 : correctorSpec s5addF s5trailed true 6 = s5e6 := by
  show correctorSpec s5addF s5trailed true (5 + 1) = s5e6
  rw [s5corr_succ, s5corr5, s5addF_eq _ _ s5add6]
  decide

theorem s5remove_eq (k : ℕ) :
    remove_cti s5addF s5trailed k true
      = correctorSpec s5addF s5trailed true k := by
  have h := remove_cti_loop_shift s5addF s5trailed true k 0
  simp only [correctorSpec, Nat.zero_add] at h
  rw [remove_cti, h.1]

/-- The largest absolute pixel difference between two same-shape images. -/
def maxAbsDiff (a b : Image) : ℚ :=
  (imgSub a b).foldl (fun m row => row.foldl (fun m x => max m (qabs x)) m) 0

/-- C3: for the 6×4 diagonal image, `remove_cti` applied to `add_cti` of
the image (same trap, CCD and standard ROE in both directions, express 0)
with `n_iterations = k` differs from the original by at most `10^(1−k)`
in every pixel, for each k ∈ {2,…,6}. -/
theorem C3_round_trip :
    s5addE s5orig = .ok s5trailed
    ∧ maxAbsDiff (remove_cti s5addF (s5addF s5orig) 2 true) s5orig ≤ 1 / 10
    ∧ maxAbsDiff (remove_cti s5addF (s5addF s5orig) 3 true) s5orig ≤ 1 / 100
    ∧ maxAbsDiff (remove_cti s5addF (s5addF s5orig) 4 true) s5orig
        ≤ 1 / 1000
    ∧ maxAbsDiff (remove_cti s5addF (s5addF s5orig) 5 true) s5orig
        ≤ 1 / 10000
    ∧ maxAbsDiff (remove_cti s5addF (s5addF s5orig) 6 true) s5orig
        ≤ 1 / 100000 := by
  rw [s5addF_eq _ _ s5add0]
  refine ⟨s5add0, ?_, ?_, ?_, ?_, ?_⟩
  · rw [s5remove_eq, s5corr2]; decide
  · rw [s5remove_eq, s5corr3]; decide
  · rw [s5remove_eq, s5corr4]; decide
  · rw [s5remove_eq, s5corr5]; decide
  · rw [s5remove_eq, s5corr6]; decide

end ArcticSpec
